import Mathlib

/-!
Verification of the resume-optimization core of the
`multi-agent-resume-optimizer` repository.

The Python source is shallowly embedded: dictionaries with a fixed key
schema become structures with `Option` fields, Python `set[str]` becomes
`Finset String`, floats become `ℚ` (all the arithmetic in the scoring
engine is exact decimal arithmetic), and `int(x)` truncation is modelled
explicitly.  Word extraction follows the source regexes restricted to
ASCII text (the identical character classes for ASCII input).
-/

namespace ResumeOpt

/-! ## Word extraction (`re.findall(r'\b[a-zA-Z]+\b', text.lower())`)

A match of `\b[a-zA-Z]+\b` is a maximal run of word characters
(`[a-zA-Z0-9_]` for ASCII text) that consists purely of letters: the
word boundaries forbid an adjacent digit or underscore. -/

def isWordChar (c : Char) : Bool := c.isAlpha || c.isDigit || c == '_'

/-- Maximal runs of word characters in a character list. -/
def wordRunsAux : List Char → List Char → List (List Char)
  | [], acc => if acc.isEmpty then [] else [acc.reverse]
  | c :: cs, acc =>
    if isWordChar c then wordRunsAux cs (c :: acc)
    else if acc.isEmpty then wordRunsAux cs []
    else acc.reverse :: wordRunsAux cs []

def wordRuns (cs : List Char) : List (List Char) := wordRunsAux cs []

/-- `re.findall(r'\b[a-zA-Z]+\b', text.lower())` as a list (with duplicates,
in order of appearance). -/
def findAlphaWords (text : String) : List String :=
  ((wordRuns (text.data.map Char.toLower)).filter
    (fun run => run.all Char.isAlpha)).map (fun run => String.mk run)

/-- `ATSOptimizerAgent._extract_words`: the set of lowercase words of a text. -/
def extract_words (text : String) : Finset String := (findAlphaWords text).toFinset

/-- Python `str.lower()` (ASCII). -/
def pyLower (s : String) : String := String.mk (s.data.map Char.toLower)

/-- Split on a separator character, keeping empty segments
(`"".split(c) = [""]`). -/
def splitOnChar (sep : Char) : List Char → List (List Char)
  | [] => [[]]
  | c :: cs =>
    let r := splitOnChar sep cs
    if c = sep then [] :: r
    else match r with
      | h :: t => (c :: h) :: t
      | [] => [[c]]

/-- Python `text.split('\n')`. -/
def pySplitLines (s : String) : List String := (splitOnChar '\n' s.data).map String.mk

/-! ## Resume content records

`Dict[str, Any]` resume sections with the key schema actually read by the
ATS optimizer.  A missing key is `none`; `some ""` is a present but falsy
value.  The Python `skills` value is either a dict carrying an
`aligned_skills` list or a plain list of skills. -/

structure ExpEntry where
  title : String := ""
  description : String := ""
  aligned_description : String := ""
  deriving DecidableEq

structure EduEntry where
  degree : String := ""
  field : String := ""
  institution : String := ""
  deriving DecidableEq

inductive SkillsData where
  | alignedDict (aligned_skills : List String)
  | plainList (items : List String)
  deriving DecidableEq

structure ResumeContent where
  summary : Option String := none
  skills : Option SkillsData := none
  experience : Option (List ExpEntry) := none
  education : Option (List EduEntry) := none
  deriving DecidableEq

/-- `exp.get('description', '') or exp.get('aligned_description', '')`. -/
def expDescription (e : ExpEntry) : String :=
  if e.description ≠ "" then e.description else e.aligned_description

def skillsWords : SkillsData → Finset String
  | .alignedDict l => l.foldl (fun acc s => acc ∪ extract_words s) ∅
  | .plainList l => l.foldl (fun acc s => acc ∪ extract_words s) ∅

/-- `ATSOptimizerAgent.extract_resume_keywords`. -/
def extract_resume_keywords (c : ResumeContent) : Finset String :=
  let k1 := match c.summary with | some s => extract_words s | none => ∅
  let k2 := match c.skills with | some sd => skillsWords sd | none => ∅
  let k3 := match c.experience with
    | some exps => exps.foldl
        (fun acc e => acc ∪ extract_words e.title ∪ extract_words (expDescription e)) ∅
    | none => ∅
  let k4 := match c.education with
    | some edus => edus.foldl
        (fun acc e => acc ∪ extract_words e.degree ∪ extract_words e.field
          ∪ extract_words e.institution) ∅
    | none => ∅
  k1 ∪ k2 ∪ k3 ∪ k4

/-! ## Keyword density (`ATSOptimizerAgent.calculate_keyword_density`) -/

structure KeywordAnalysis where
  density_score : ℚ
  /-- `raw_match_rate` is absent from the result dict when there are no job
  keywords; `none` models the absent key. -/
  raw_match_rate : Option ℚ
  matching_keywords : List String
  missing_keywords : List String
  total_job_keywords : ℕ
  matched_count : ℕ
  deriving DecidableEq

/-- `sorted(list(s))` for a set of strings. -/
def sortedKeywords (s : Finset String) : List String := s.sort (· ≤ ·)

/-- The scoring curve applied to the raw match rate, capped at 1.0. -/
def densityCurve (raw : ℚ) : ℚ :=
  min 1
    (if raw ≥ 7/10 then 95/100 + (raw - 7/10) * (15/100)
     else if raw ≥ 6/10 then 90/100 + (raw - 6/10) * (50/100)
     else if raw ≥ 5/10 then 85/100 + (raw - 5/10) * (50/100)
     else if raw ≥ 4/10 then 75/100 + (raw - 4/10) * 1
     else raw * (1875/1000))

def calculate_keyword_density (resume_keywords job_keywords : Finset String) :
    KeywordAnalysis :=
  if job_keywords = ∅ then
    { density_score := 1, raw_match_rate := none, matching_keywords := [],
      missing_keywords := [], total_job_keywords := 0, matched_count := 0 }
  else
    let matching := resume_keywords ∩ job_keywords
    let missing := job_keywords \ resume_keywords
    let raw : ℚ := (matching.card : ℚ) / (job_keywords.card : ℚ)
    { density_score := densityCurve raw, raw_match_rate := some raw,
      matching_keywords := sortedKeywords matching,
      missing_keywords := sortedKeywords missing,
      total_job_keywords := job_keywords.card,
      matched_count := matching.card }

/-! ## Section presence (`ATSOptimizerAgent.check_section_presence`)

A required section is present when its key exists and its value is truthy.
A dict value (the `aligned_skills` form) is truthy even when the list under
`aligned_skills` is empty; a list value is truthy iff it is non-empty.
The per-section `section_details` map of the source is read by nothing we
verify and is omitted. -/

structure SectionAnalysis where
  section_score : ℚ
  present_sections : List String
  missing_sections : List String
  total_required : ℕ
  present_count : ℕ
  deriving DecidableEq

def summaryPresent (c : ResumeContent) : Bool :=
  match c.summary with | some s => s ≠ "" | none => false

def skillsPresent (c : ResumeContent) : Bool :=
  match c.skills with
  | some (.alignedDict _) => true
  | some (.plainList l) => !l.isEmpty
  | none => false

def experiencePresent (c : ResumeContent) : Bool :=
  match c.experience with | some l => !l.isEmpty | none => false

def educationPresent (c : ResumeContent) : Bool :=
  match c.education with | some l => !l.isEmpty | none => false

/-- The section score as a function of the number of present sections
(out of the 4 required ones). -/
def sectionScoreOfCount (n : ℕ) : ℚ :=
  if n = 4 then 1
  else if n ≥ 3 then 95/100
  else 85/100 + ((n : ℚ) / 4) * (10/100)

def check_section_presence (c : ResumeContent) : SectionAnalysis :=
  let present : List String :=
    (if educationPresent c then ["education"] else [])
    ++ (if experiencePresent c then ["experience"] else [])
    ++ (if skillsPresent c then ["skills"] else [])
    ++ (if summaryPresent c then ["summary"] else [])
  let missing : List String :=
    (if educationPresent c then [] else ["education"])
    ++ (if experiencePresent c then [] else ["experience"])
    ++ (if skillsPresent c then [] else ["skills"])
    ++ (if summaryPresent c then [] else ["summary"])
  let n := present.length
  { section_score := sectionScoreOfCount n, present_sections := present,
    missing_sections := missing, total_required := 4, present_count := n }

/-! ## Formatting rules (`ATSOptimizerAgent.check_formatting_rules`) -/

/-- Python `\s` for ASCII text. -/
def isPySpace (c : Char) : Bool :=
  c == ' ' || c == '\t' || c == '\n' || c == '\r' || c == '\x0b' || c == '\x0c'

def listContainsRun (needle : List Char) : List Char → Bool
  | [] => needle.isEmpty
  | c :: t => needle.isPrefixOf (c :: t) || listContainsRun needle t

/-- `needle in hay` for strings. -/
def strContains (hay needle : String) : Bool := listContainsRun needle.data hay.data

/-- `ATSOptimizerAgent._resume_to_text`. -/
def resume_to_text (c : ResumeContent) : String :=
  let parts : List String :=
    (match c.summary with | some s => if s ≠ "" then [s] else [] | none => [])
    ++ (match c.skills with
        | some (.alignedDict l) => l
        | some (.plainList l) => l
        | none => [])
    ++ (match c.experience with
        | some exps => exps.foldr (fun e acc => e.title :: expDescription e :: acc) []
        | none => [])
    ++ (match c.education with
        | some edus => edus.foldr
            (fun e acc => e.degree :: e.field :: e.institution :: acc) []
        | none => [])
  String.intercalate "\n" (parts.filter (fun s => s ≠ ""))

structure FormattingAnalysis where
  formatting_score : ℚ
  /-- The `rule` names of the issue dicts, in the order they are appended. -/
  formatting_issues : List String
  issues_count : ℕ
  total_checks : ℕ
  ats_friendly : Bool
  deriving DecidableEq

/-- Characters matched by `[^\w\s\-\.\,\(\)\[\]]` (ASCII). -/
def isSpecialChar (c : Char) : Bool :=
  !(isWordChar c || isPySpace c || c == '-' || c == '.' || c == ','
    || c == '(' || c == ')' || c == '[' || c == ']')

/-- Image/graphic indicator scan (weight-1 issue). -/
def imageIssueB (c : ResumeContent) : Bool :=
  ["[image]", "[graphic]", "[photo]", "img:", "src="].any
    (strContains (pyLower (resume_to_text c)))

/-- Table indicator scan (weight-0.5 issue). -/
def tableIssueB (c : ResumeContent) : Bool :=
  ["|", "\t\t", "  \t"].any (strContains (pyLower (resume_to_text c)))

/-- More than 5% of the characters are special (weight-0.5 issue). -/
def specialIssueP (c : ResumeContent) : Prop :=
  (((resume_to_text c).data.filter isSpecialChar).length : ℚ)
    > ((resume_to_text c).length : ℚ) * (5/100)

instance (c : ResumeContent) : Decidable (specialIssueP c) := by
  unfold specialIssueP; infer_instance

/-- More than 30% of the lines are longer than 100 characters
(weight-0.25 issue). -/
def longLinesIssueP (c : ResumeContent) : Prop :=
  (((pySplitLines (resume_to_text c)).filter (fun l => l.length > 100)).length : ℚ)
    > ((pySplitLines (resume_to_text c)).length : ℚ) * (3/10)

instance (c : ResumeContent) : Decidable (longLinesIssueP c) := by
  unfold longLinesIssueP; infer_instance

/-- The weighted issue units. -/
def issueUnits (img tbl spec lng : Bool) : ℚ :=
  (if img then 1 else 0) + (if tbl then 1/2 else 0)
  + (if spec then 1/2 else 0) + (if lng then 1/4 else 0)

/-- The formatting score as a function of the weighted issue units
(`total_checks = 7` formatting rules). -/
def formattingScoreOfU (u : ℚ) : ℚ :=
  if u = 0 then 1
  else if u ≤ 1 then 95/100
  else if u ≤ 2 then 90/100
  else max (85/100) (1 - u / 7 * (15/100))

def check_formatting_rules (c : ResumeContent) : FormattingAnalysis :=
  let img := imageIssueB c
  let tbl := tableIssueB c
  let spec := decide (specialIssueP c)
  let lng := decide (longLinesIssueP c)
  let issues : List String :=
    (if img then ["no_images"] else [])
    ++ (if tbl then ["no_tables"] else [])
    ++ (if spec then ["simple_formatting"] else [])
    ++ (if lng then ["standard_formatting"] else [])
  { formatting_score := formattingScoreOfU (issueUnits img tbl spec lng),
    formatting_issues := issues,
    issues_count := issues.length, total_checks := 7,
    ats_friendly := issues.isEmpty }

/-! ## Composite score (`ATSOptimizerAgent.calculate_ats_score`) -/

structure ATSConfig where
  target_ats_score : ℤ := 90
  keyword_density_weight : ℚ := 35/100
  section_weight : ℚ := 40/100
  formatting_weight : ℚ := 25/100
  min_keyword_density : ℚ := 1/2

def defaultConfig : ATSConfig := {}

/-- Python `int(x)`: truncation toward zero. -/
def pyInt (q : ℚ) : ℤ := if 0 ≤ q then ⌊q⌋ else -⌊-q⌋

structure ATSScoreData where
  ats_score : ℤ
  category : String
  status : String
  keyword_breakdown : ℤ
  section_breakdown : ℤ
  formatting_breakdown : ℤ
  deriving DecidableEq

def calculate_ats_score (cfg : ATSConfig) (kw : KeywordAnalysis)
    (sec : SectionAnalysis) (fmt : FormattingAnalysis) : ATSScoreData :=
  let overall : ℚ :=
    kw.density_score * cfg.keyword_density_weight
    + sec.section_score * cfg.section_weight
    + fmt.formatting_score * cfg.formatting_weight
  let ats := pyInt (overall * 100)
  let category : String :=
    if ats ≥ 90 then "Excellent"
    else if ats ≥ 80 then "Good"
    else if ats ≥ 70 then "Fair"
    else "Poor"
  let status : String :=
    if ats ≥ 90 then "ATS Optimized"
    else if ats ≥ 80 then "Minor Improvements Needed"
    else if ats ≥ 70 then "Moderate Improvements Needed"
    else "Major Improvements Required"
  { ats_score := ats, category := category, status := status,
    keyword_breakdown := pyInt (kw.density_score * 100),
    section_breakdown := pyInt (sec.section_score * 100),
    formatting_breakdown := pyInt (fmt.formatting_score * 100) }

/-! ## Auto-fix (`ATSOptimizerAgent.auto_fix_issues`)

The `suggestions` parameter of the source function is never read by its
body and is omitted here.  The quote characters around the header names in
the `Standardized ...` log messages are omitted from the modelled strings. -/

structure AutoFixResult where
  fixed_content : ResumeContent
  fixes_applied : List String
  fix_count : ℕ
  /-- `updated_ats_score` / `score_improvement` keys are added by
  `optimize_resume` only when `fix_count > 0`; `none` models absence. -/
  updated_ats_score : Option ℤ := none
  score_improvement : Option ℤ := none
  deriving DecidableEq

/-- One iteration of the `for section in missing_sections` placeholder loop. -/
def applySectionFix (kwA : KeywordAnalysis) (acc : ResumeContent × List String)
    (s : String) : ResumeContent × List String :=
  let (c, fixes) := acc
  if s = "summary" then
    if c.summary = none then
      ({ c with summary := some "Professional with relevant experience and skills." },
       fixes ++ ["Added placeholder Summary section"])
    else acc
  else if s = "skills" then
    if c.skills = none then
      let missing := kwA.missing_keywords.take 10
      ({ c with skills := some (.alignedDict missing) },
       fixes ++ ["Added Skills section with " ++ toString missing.length ++ " keywords"])
    else acc
  else if s = "experience" then
    if c.experience = none then
      ({ c with experience := some [] }, fixes ++ ["Added placeholder Experience section"])
    else acc
  else if s = "education" then
    if c.education = none then
      ({ c with education := some [] }, fixes ++ ["Added placeholder Education section"])
    else acc
  else acc

/-- The summary half of the keyword-enhancement pass. -/
def summaryKeywordFix (kwA : KeywordAnalysis) (acc : ResumeContent × List String) :
    ResumeContent × List String :=
  match acc.1.summary with
  | some s =>
    let toAdd := kwA.missing_keywords.take 5
    let enhanced := s ++ " Experienced with " ++ String.intercalate ", " toAdd ++ "."
    if toAdd ≠ [] then
      ({ acc.1 with summary := some enhanced },
       acc.2 ++ ["Enhanced summary with " ++ toString toAdd.length ++ " keywords"])
    else acc
  | none => acc

/-- The skills half of the keyword-enhancement pass. -/
def skillsKeywordFix (kwA : KeywordAnalysis) (acc : ResumeContent × List String) :
    ResumeContent × List String :=
  match acc.1.skills with
  | some (.alignedDict l) =>
    let current := l.map pyLower
    let newKw := (kwA.missing_keywords.take 10).filter (fun kw => !current.contains (pyLower kw))
    if newKw ≠ [] then
      ({ acc.1 with skills := some (.alignedDict (l ++ newKw)) },
       acc.2 ++ ["Added " ++ toString newKw.length ++ " keywords to skills section"])
    else acc
  | _ => acc

/-- The keyword-enhancement pass (`if missing_keywords and len(...) <= 20`). -/
def applyKeywordFix (kwA : KeywordAnalysis) (acc : ResumeContent × List String) :
    ResumeContent × List String :=
  if kwA.missing_keywords ≠ [] ∧ kwA.missing_keywords.length ≤ 20 then
    skillsKeywordFix kwA (summaryKeywordFix kwA acc)
  else acc

/-- The header-standardization log entries (content is unchanged by them). -/
def headerFixes (c : ResumeContent) : List String :=
  (if c.summary.isSome then ["Standardized summary header to Professional Summary"] else [])
  ++ (if c.skills.isSome then ["Standardized skills header to Skills"] else [])
  ++ (if c.experience.isSome then ["Standardized experience header to Experience"] else [])
  ++ (if c.education.isSome then ["Standardized education header to Education"] else [])

def auto_fix_issues (c : ResumeContent) (kwA : KeywordAnalysis)
    (secA : SectionAnalysis) : AutoFixResult :=
  let p1 := secA.missing_sections.foldl (applySectionFix kwA) (c, [])
  let p2 := applyKeywordFix kwA p1
  let fixes := p2.2 ++ headerFixes p2.1
  { fixed_content := p2.1, fixes_applied := fixes, fix_count := fixes.length }

/-! ## `ATSOptimizerAgent.optimize_resume`

The aligned-resume input is modelled by the resume sections record together
with the job-keyword set obtained from `aligned_sections['job_keywords']`
(either the `all` entry of the dict form or the list form, both of which
become a set of strings).  Of the large result dict, the fields the claims
concern are kept: the ATS analysis and the auto-fix results. -/

structure OptimizeResult where
  ats_score : ℤ
  category : String
  status : String
  meets_target : Bool
  auto_fix_results : Option AutoFixResult
  deriving DecidableEq

def optimize_resume (cfg : ATSConfig) (sections : ResumeContent)
    (job_keywords : Finset String) : OptimizeResult :=
  let resume_keywords := extract_resume_keywords sections
  let kwA := calculate_keyword_density resume_keywords job_keywords
  let secA := check_section_presence sections
  let fmtA := check_formatting_rules sections
  let score := calculate_ats_score cfg kwA secA fmtA
  let autoFix : Option AutoFixResult :=
    if score.ats_score < cfg.target_ats_score then
      let afr := auto_fix_issues sections kwA secA
      if afr.fix_count > 0 then
        let fixedKw := extract_resume_keywords afr.fixed_content
        let ukwA := calculate_keyword_density fixedKw job_keywords
        let usecA := check_section_presence afr.fixed_content
        let ufmtA := check_formatting_rules afr.fixed_content
        let uscore := calculate_ats_score cfg ukwA usecA ufmtA
        some { afr with updated_ats_score := some uscore.ats_score,
                        score_improvement := some (uscore.ats_score - score.ats_score) }
      else some afr
    else none
  { ats_score := score.ats_score, category := score.category, status := score.status,
    meets_target := score.ats_score ≥ cfg.target_ats_score,
    auto_fix_results := autoFix }

/-! ## Score bound lemmas -/

theorem densityCurve_nonneg {raw : ℚ} (h : 0 ≤ raw) : 0 ≤ densityCurve raw := by
  unfold densityCurve
  refine le_min (by norm_num) ?_
  split_ifs <;> linarith

theorem densityCurve_le_one (raw : ℚ) : densityCurve raw ≤ 1 := min_le_left _ _

theorem density_score_nonneg (r j : Finset String) :
    0 ≤ (calculate_keyword_density r j).density_score := by
  unfold calculate_keyword_density
  split_ifs with h
  · norm_num
  · exact densityCurve_nonneg (by positivity)

theorem density_score_le_one (r j : Finset String) :
    (calculate_keyword_density r j).density_score ≤ 1 := by
  unfold calculate_keyword_density
  split_ifs with h
  · norm_num
  · exact densityCurve_le_one _

theorem sectionScoreOfCount_nonneg (n : ℕ) : 0 ≤ sectionScoreOfCount n := by
  unfold sectionScoreOfCount
  split_ifs <;> positivity

theorem sectionScoreOfCount_le_one {n : ℕ} (h : n ≤ 4) : sectionScoreOfCount n ≤ 1 := by
  have hna : (n : ℚ) ≤ 4 := by exact_mod_cast h
  unfold sectionScoreOfCount
  split_ifs with h1 h2
  · norm_num
  · norm_num
  · linarith

theorem section_score_nonneg (c : ResumeContent) :
    0 ≤ (check_section_presence c).section_score := by
  unfold check_section_presence
  exact sectionScoreOfCount_nonneg _

theorem present_count_le_four (c : ResumeContent) :
    (check_section_presence c).present_count ≤ 4 := by
  unfold check_section_presence
  simp only
  split_ifs <;> simp

theorem section_score_le_one (c : ResumeContent) :
    (check_section_presence c).section_score ≤ 1 := by
  have h4 := present_count_le_four c
  unfold check_section_presence at h4 ⊢
  simp only at h4 ⊢
  exact sectionScoreOfCount_le_one h4

theorem issueUnits_nonneg (a b c d : Bool) : 0 ≤ issueUnits a b c d := by
  unfold issueUnits
  split_ifs <;> norm_num

theorem formattingScoreOfU_nonneg (u : ℚ) : 0 ≤ formattingScoreOfU u := by
  unfold formattingScoreOfU
  split_ifs <;> norm_num

theorem formattingScoreOfU_le_one {u : ℚ} (h : 0 ≤ u) : formattingScoreOfU u ≤ 1 := by
  unfold formattingScoreOfU
  have h15 : 0 ≤ u / 7 * (15/100) := by positivity
  split_ifs <;> try norm_num
  positivity

theorem formatting_score_nonneg (c : ResumeContent) :
    0 ≤ (check_formatting_rules c).formatting_score := by
  unfold check_formatting_rules
  exact formattingScoreOfU_nonneg _

theorem formatting_score_le_one (c : ResumeContent) :
    (check_formatting_rules c).formatting_score ≤ 1 := by
  unfold check_formatting_rules
  exact formattingScoreOfU_le_one (issueUnits_nonneg _ _ _ _)

/-- Python `int()` agrees with the floor on nonnegative rationals. -/
theorem pyInt_of_nonneg {q : ℚ} (h : 0 ≤ q) : pyInt q = ⌊q⌋ := by
  unfold pyInt; simp [h]

/-! ## Claim C1 -/

/-- The density curve exactly as claim C1 words it, with its explicit
interval conditions and the cap at 1. -/
def densityCurveClaim (raw : ℚ) : ℚ :=
  min 1
    (if raw ≥ 7/10 then 95/100 + (raw - 7/10) * (15/100)
     else if 6/10 ≤ raw ∧ raw < 7/10 then 90/100 + (raw - 6/10) * (50/100)
     else if 5/10 ≤ raw ∧ raw < 6/10 then 85/100 + (raw - 5/10) * (50/100)
     else if 4/10 ≤ raw ∧ raw < 5/10 then 75/100 + (raw - 4/10) * 1
     else raw * (1875/1000))

theorem densityBranches_eq (raw : ℚ) :
    (if raw ≥ 7/10 then 95/100 + (raw - 7/10) * (15/100)
     else if raw ≥ 6/10 then 90/100 + (raw - 6/10) * (50/100)
     else if raw ≥ 5/10 then 85/100 + (raw - 5/10) * (50/100)
     else if raw ≥ 4/10 then 75/100 + (raw - 4/10) * 1
     else raw * (1875/1000)) =
    (if raw ≥ 7/10 then 95/100 + (raw - 7/10) * (15/100)
     else if 6/10 ≤ raw ∧ raw < 7/10 then 90/100 + (raw - 6/10) * (50/100)
     else if 5/10 ≤ raw ∧ raw < 6/10 then 85/100 + (raw - 5/10) * (50/100)
     else if 4/10 ≤ raw ∧ raw < 5/10 then 75/100 + (raw - 4/10) * 1
     else raw * (1875/1000)) := by
  by_cases h7 : raw ≥ 7/10
  · rw [if_pos h7, if_pos h7]
  · rw [if_neg h7, if_neg h7]
    by_cases h6 : raw ≥ 6/10
    · rw [if_pos h6, if_pos (show 6/10 ≤ raw ∧ raw < 7/10 from ⟨h6, lt_of_not_ge h7⟩)]
    · rw [if_neg h6, if_neg (show ¬(6/10 ≤ raw ∧ raw < 7/10) from fun hc => h6 hc.1)]
      by_cases h5 : raw ≥ 5/10
      · rw [if_pos h5, if_pos (show 5/10 ≤ raw ∧ raw < 6/10 from ⟨h5, lt_of_not_ge h6⟩)]
      · rw [if_neg h5, if_neg (show ¬(5/10 ≤ raw ∧ raw < 6/10) from fun hc => h5 hc.1)]
        by_cases h4 : raw ≥ 4/10
        · rw [if_pos h4, if_pos (show 4/10 ≤ raw ∧ raw < 5/10 from ⟨h4, lt_of_not_ge h5⟩)]
        · rw [if_neg h4, if_neg (show ¬(4/10 ≤ raw ∧ raw < 5/10) from fun hc => h4 hc.1)]

/-- C1: `calculate_keyword_density` returns density 1.0 on an empty
job-keyword set, otherwise applies the claimed piecewise curve (capped at
1.0) to `raw = |resume ∩ job| / |job|`; matching exactly 2 of the 5 job
keywords {python, django, aws, docker, postgresql} yields density 0.75. -/
theorem C1_keyword_density_curve :
    (∀ resume job : Finset String,
      (calculate_keyword_density resume job).density_score =
        if job = ∅ then 1
        else densityCurveClaim (((resume ∩ job).card : ℚ) / (job.card : ℚ)))
    ∧ (calculate_keyword_density {"python", "django", "java"}
        {"python", "django", "aws", "docker", "postgresql"}).density_score = 75/100 := by
  constructor
  · intro resume job
    by_cases h : job = ∅
    · simp [calculate_keyword_density, h]
    · simp only [calculate_keyword_density, h, if_false]
      unfold densityCurve densityCurveClaim
      congr 1
      exact densityBranches_eq _
  · have hne : ({"python", "django", "aws", "docker", "postgresql"} : Finset String) ≠ ∅ := by
      decide
    have hc2 : (({"python", "django", "java"} : Finset String)
        ∩ {"python", "django", "aws", "docker", "postgresql"}).card = 2 := by decide
    have hc5 : ({"python", "django", "aws", "docker", "postgresql"} : Finset String).card = 5 := by
      decide
    unfold calculate_keyword_density
    rw [if_neg hne]
    simp only [hc2, hc5]
    rw [show ((2 : ℕ) : ℚ) / ((5 : ℕ) : ℚ) = 2/5 by norm_num]
    norm_num [densityCurve, min_def]

/-! ## Claim C3 -/

/-- The category thresholds exactly as the claim words them. -/
def scoreCategoryClaim (s : ℤ) : String :=
  if s ≥ 90 then "Excellent"
  else if s ≥ 80 then "Good"
  else if s ≥ 70 then "Fair"
  else "Poor"

/-- C3 (amended): for weight configurations with nonnegative weights summing
to at most 1 and analyses produced by the three analysis functions, the
`ats_score` is an integer in [0,100] and the category is the pure threshold
function of the score.  (Unrestricted weights break the bound: see the
counterexample.) -/
theorem C3_ats_score_in_range (cfg : ATSConfig)
    (hk : 0 ≤ cfg.keyword_density_weight) (hs : 0 ≤ cfg.section_weight)
    (hf : 0 ≤ cfg.formatting_weight)
    (hsum : cfg.keyword_density_weight + cfg.section_weight + cfg.formatting_weight ≤ 1)
    (rk jk : Finset String) (c c' : ResumeContent) :
    0 ≤ (calculate_ats_score cfg (calculate_keyword_density rk jk)
          (check_section_presence c) (check_formatting_rules c')).ats_score
    ∧ (calculate_ats_score cfg (calculate_keyword_density rk jk)
          (check_section_presence c) (check_formatting_rules c')).ats_score ≤ 100
    ∧ (calculate_ats_score cfg (calculate_keyword_density rk jk)
          (check_section_presence c) (check_formatting_rules c')).category =
        scoreCategoryClaim (calculate_ats_score cfg (calculate_keyword_density rk jk)
          (check_section_presence c) (check_formatting_rules c')).ats_score := by
  have hd0 := density_score_nonneg rk jk
  have hd1 := density_score_le_one rk jk
  have hs0 := section_score_nonneg c
  have hs1 := section_score_le_one c
  have hf0 := formatting_score_nonneg c'
  have hf1 := formatting_score_le_one c'
  set dk := (calculate_keyword_density rk jk).density_score
  set ds := (check_section_presence c).section_score
  set df := (check_formatting_rules c').formatting_score
  have hov0 : 0 ≤ dk * cfg.keyword_density_weight + ds * cfg.section_weight
      + df * cfg.formatting_weight := by positivity
  have hov1 : dk * cfg.keyword_density_weight + ds * cfg.section_weight
      + df * cfg.formatting_weight ≤ 1 := by
    have h1 : dk * cfg.keyword_density_weight ≤ cfg.keyword_density_weight := by
      nlinarith
    have h2 : ds * cfg.section_weight ≤ cfg.section_weight := by nlinarith
    have h3 : df * cfg.formatting_weight ≤ cfg.formatting_weight := by nlinarith
    linarith
  unfold calculate_ats_score
  simp only
  rw [pyInt_of_nonneg (by positivity)]
  refine ⟨?_, ?_, rfl⟩
  · exact Int.floor_nonneg.mpr (by positivity)
  · calc ⌊(dk * cfg.keyword_density_weight + ds * cfg.section_weight
        + df * cfg.formatting_weight) * 100⌋ ≤ ⌊(100 : ℚ)⌋ := by
          apply Int.floor_le_floor; nlinarith
      _ = 100 := by norm_num

/-- The resume record with no sections at all. -/
def emptyContent : ResumeContent := {}

theorem emptyContent_section_score :
    (check_section_presence emptyContent).section_score = 85/100 := by
  unfold check_section_presence
  simp [summaryPresent, skillsPresent, experiencePresent, educationPresent,
    emptyContent, sectionScoreOfCount]

theorem emptyContent_formatting_score :
    (check_formatting_rules emptyContent).formatting_score = 1 := by
  have h1 : imageIssueB emptyContent = false := by decide
  have h2 : tableIssueB emptyContent = false := by decide
  have h3 : ¬ specialIssueP emptyContent := by
    unfold specialIssueP
    rw [show resume_to_text emptyContent = "" from by decide]
    norm_num
  have h4 : ¬ longLinesIssueP emptyContent := by
    unfold longLinesIssueP
    rw [show pySplitLines (resume_to_text emptyContent) = [""] from by decide]
    norm_num
  unfold check_formatting_rules
  rw [h1, h2, decide_eq_false h3, decide_eq_false h4]
  norm_num [issueUnits, formattingScoreOfU]

theorem empty_density_score : (calculate_keyword_density ∅ ∅).density_score = 1 := by
  simp [calculate_keyword_density]

/-- C3 counterexample: the constructor accepts the weight configuration
(2, 2, 2), under which a fully clean analysis yields an ats_score of 570,
outside [0,100]. -/
theorem C3_counterexample :
    (calculate_ats_score
      { target_ats_score := 90, keyword_density_weight := 2, section_weight := 2,
        formatting_weight := 2, min_keyword_density := 1/2 }
      (calculate_keyword_density ∅ ∅) (check_section_presence emptyContent)
      (check_formatting_rules emptyContent)).ats_score = 570
    ∧ ¬ ((calculate_ats_score
      { target_ats_score := 90, keyword_density_weight := 2, section_weight := 2,
        formatting_weight := 2, min_keyword_density := 1/2 }
      (calculate_keyword_density ∅ ∅) (check_section_presence emptyContent)
      (check_formatting_rules emptyContent)).ats_score ≤ 100) := by
  have h : (calculate_ats_score
      { target_ats_score := 90, keyword_density_weight := 2, section_weight := 2,
        formatting_weight := 2, min_keyword_density := 1/2 }
      (calculate_keyword_density ∅ ∅) (check_section_presence emptyContent)
      (check_formatting_rules emptyContent)).ats_score = 570 := by
    unfold calculate_ats_score
    rw [empty_density_score, emptyContent_section_score, emptyContent_formatting_score]
    norm_num [pyInt]
  exact ⟨h, by rw [h]; norm_num⟩

/-! ## Claim C4 -/

/-- C4 counterexample: with the default weights and sub-scores
(0.99, 1, 1) ⊆ [0,1], the weighted sum is 0.9965, whose value scaled to
100 is 99.65; `calculate_ats_score` truncates it to 99 while rounding to
the nearest integer gives 100. -/
theorem C4_counterexample :
    (calculate_ats_score defaultConfig
      { density_score := 99/100, raw_match_rate := none, matching_keywords := [],
        missing_keywords := [], total_job_keywords := 0, matched_count := 0 }
      { section_score := 1, present_sections := [], missing_sections := [],
        total_required := 4, present_count := 4 }
      { formatting_score := 1, formatting_issues := [], issues_count := 0,
        total_checks := 7, ats_friendly := true }).ats_score = 99
    ∧ round ((100 : ℚ) * ((99/100) * (35/100) + 1 * (40/100) + 1 * (25/100))) = 100 := by
  constructor
  · unfold calculate_ats_score defaultConfig
    norm_num [pyInt]
  · norm_num [round_eq]

/-- C4 (amended): for sub-scores in [0,1] and nonnegative weights, the
composite is `ats_score = ⌊100·(keyword_w·density + section_w·section +
formatting_w·formatting)⌋` — Python `int()` truncation (equal to the floor
on these nonnegative values), not rounding to the nearest integer. -/
theorem C4_composite_is_floor (cfg : ATSConfig) (kw : KeywordAnalysis)
    (sec : SectionAnalysis) (fmt : FormattingAnalysis)
    (hd : 0 ≤ kw.density_score) (hs : 0 ≤ sec.section_score)
    (hf : 0 ≤ fmt.formatting_score)
    (hwk : 0 ≤ cfg.keyword_density_weight) (hws : 0 ≤ cfg.section_weight)
    (hwf : 0 ≤ cfg.formatting_weight) :
    (calculate_ats_score cfg kw sec fmt).ats_score =
      ⌊(100 : ℚ) * (kw.density_score * cfg.keyword_density_weight
        + sec.section_score * cfg.section_weight
        + fmt.formatting_score * cfg.formatting_weight)⌋ := by
  unfold calculate_ats_score
  simp only
  rw [pyInt_of_nonneg (by positivity)]
  congr 1
  ring

theorem C4_composite_is_floor_witness :
    (0 : ℚ) ≤ 1 ∧
    (calculate_ats_score defaultConfig
      { density_score := 1, raw_match_rate := none, matching_keywords := [],
        missing_keywords := [], total_job_keywords := 0, matched_count := 0 }
      { section_score := 1, present_sections := [], missing_sections := [],
        total_required := 4, present_count := 4 }
      { formatting_score := 1, formatting_issues := [], issues_count := 0,
        total_checks := 7, ats_friendly := true }).ats_score =
      ⌊(100 : ℚ) * ((1 : ℚ) * (35/100) + 1 * (40/100) + 1 * (25/100))⌋ := by
  refine ⟨by norm_num, ?_⟩
  exact C4_composite_is_floor defaultConfig
    { density_score := 1, raw_match_rate := none, matching_keywords := [],
      missing_keywords := [], total_job_keywords := 0, matched_count := 0 }
    { section_score := 1, present_sections := [], missing_sections := [],
      total_required := 4, present_count := 4 }
    { formatting_score := 1, formatting_issues := [], issues_count := 0,
      total_checks := 7, ats_friendly := true }
    (by norm_num) (by norm_num) (by norm_num)
    (by norm_num [defaultConfig]) (by norm_num [defaultConfig])
    (by norm_num [defaultConfig])

/-! ## Claim C2: the auto-fix pass of `optimize_resume` -/

theorem applySectionFix_summary_isSome (kwA : KeywordAnalysis)
    (acc : ResumeContent × List String) (s : String) (h : acc.1.summary.isSome) :
    ((applySectionFix kwA acc s).1).summary.isSome := by
  obtain ⟨c, fixes⟩ := acc
  unfold applySectionFix
  simp only at h ⊢
  split_ifs <;> simp_all

theorem applySectionFix_summary_elem (kwA : KeywordAnalysis)
    (acc : ResumeContent × List String) :
    ((applySectionFix kwA acc "summary").1).summary.isSome := by
  obtain ⟨c, fixes⟩ := acc
  unfold applySectionFix
  simp only [if_true]
  by_cases h : c.summary = none
  · rw [if_pos h]; rfl
  · rw [if_neg h]
    exact Option.isSome_iff_ne_none.mpr h

theorem foldl_sectionFix_summary_isSome (kwA : KeywordAnalysis) (l : List String)
    (acc : ResumeContent × List String) (h : acc.1.summary.isSome) :
    ((l.foldl (applySectionFix kwA) acc).1).summary.isSome := by
  induction l generalizing acc with
  | nil => exact h
  | cons x xs ih => exact ih _ (applySectionFix_summary_isSome kwA acc x h)

theorem summaryKeywordFix_summary_isSome (kwA : KeywordAnalysis)
    (acc : ResumeContent × List String) (h : acc.1.summary.isSome) :
    ((summaryKeywordFix kwA acc).1).summary.isSome := by
  obtain ⟨c, fixes⟩ := acc
  unfold summaryKeywordFix
  simp only at h ⊢
  rcases hsum : c.summary with _ | s
  · rw [hsum] at h; simp at h
  · simp only
    split_ifs <;> simp_all

theorem skillsKeywordFix_summary_eq (kwA : KeywordAnalysis)
    (acc : ResumeContent × List String) :
    ((skillsKeywordFix kwA acc).1).summary = acc.1.summary := by
  obtain ⟨c, fixes⟩ := acc
  unfold skillsKeywordFix
  simp only
  rcases hsk : c.skills with _ | sd
  · rfl
  · cases sd
    · dsimp only
      split_ifs <;> rfl
    · rfl

theorem applyKeywordFix_summary_isSome (kwA : KeywordAnalysis)
    (acc : ResumeContent × List String) (h : acc.1.summary.isSome) :
    ((applyKeywordFix kwA acc).1).summary.isSome := by
  unfold applyKeywordFix
  split_ifs with hcond
  · rw [Option.isSome_iff_ne_none, skillsKeywordFix_summary_eq,
      ← Option.isSome_iff_ne_none]
    exact summaryKeywordFix_summary_isSome kwA _ h
  · exact h

theorem auto_fix_summary_isSome (c : ResumeContent) (kwA : KeywordAnalysis) :
    ((auto_fix_issues c kwA (check_section_presence c)).fixed_content).summary.isSome := by
  unfold auto_fix_issues
  simp only
  apply applyKeywordFix_summary_isSome
  unfold check_section_presence
  simp only
  by_cases h : summaryPresent c
  · apply foldl_sectionFix_summary_isSome
    unfold summaryPresent at h
    rcases hs : c.summary with _ | s
    · rw [hs] at h; simp at h
    · simp
  · rw [if_neg h, List.foldl_append]
    simp only [List.foldl_cons, List.foldl_nil]
    exact applySectionFix_summary_elem _ _

theorem headerFixes_ne_nil {c : ResumeContent} (h : c.summary.isSome) :
    headerFixes c ≠ [] := by
  unfold headerFixes
  rw [if_pos h]
  simp

theorem auto_fix_count_pos (c : ResumeContent) (kwA : KeywordAnalysis) :
    0 < (auto_fix_issues c kwA (check_section_presence c)).fix_count := by
  have hsum := auto_fix_summary_isSome c kwA
  unfold auto_fix_issues at hsum ⊢
  simp only at hsum ⊢
  have hne := headerFixes_ne_nil hsum
  rw [List.length_append]
  have := List.length_pos.mpr hne
  omega

/-- C2 (amended): `optimize_resume` runs the auto-fix exactly when the
computed `ats_score` is strictly below the target; the fix is the single
`auto_fix_issues` pass, which always applies at least one fix, so the score
is recomputed exactly once on the fixed record (no iteration), and the
reported `score_improvement` is the recomputed score minus the original
score — which can be negative (the appended keywords can introduce
formatting issues; see the counterexample). -/
theorem C2_optimize_autofix (cfg : ATSConfig) (sections : ResumeContent)
    (job : Finset String) :
    ((optimize_resume cfg sections job).auto_fix_results.isSome ↔
      (optimize_resume cfg sections job).ats_score < cfg.target_ats_score)
    ∧ (optimize_resume cfg sections job).ats_score =
        (calculate_ats_score cfg
          (calculate_keyword_density (extract_resume_keywords sections) job)
          (check_section_presence sections) (check_formatting_rules sections)).ats_score
    ∧ ((optimize_resume cfg sections job).ats_score < cfg.target_ats_score →
        (optimize_resume cfg sections job).auto_fix_results =
          some { auto_fix_issues sections
                  (calculate_keyword_density (extract_resume_keywords sections) job)
                  (check_section_presence sections) with
                 updated_ats_score := some
                   ((calculate_ats_score cfg
                     (calculate_keyword_density
                       (extract_resume_keywords
                         (auto_fix_issues sections
                           (calculate_keyword_density (extract_resume_keywords sections) job)
                           (check_section_presence sections)).fixed_content) job)
                     (check_section_presence
                       (auto_fix_issues sections
                         (calculate_keyword_density (extract_resume_keywords sections) job)
                         (check_section_presence sections)).fixed_content)
                     (check_formatting_rules
                       (auto_fix_issues sections
                         (calculate_keyword_density (extract_resume_keywords sections) job)
                         (check_section_presence sections)).fixed_content)).ats_score),
                 score_improvement := some
                   ((calculate_ats_score cfg
                     (calculate_keyword_density
                       (extract_resume_keywords
                         (auto_fix_issues sections
                           (calculate_keyword_density (extract_resume_keywords sections) job)
                           (check_section_presence sections)).fixed_content) job)
                     (check_section_presence
                       (auto_fix_issues sections
                         (calculate_keyword_density (extract_resume_keywords sections) job)
                         (check_section_presence sections)).fixed_content)
                     (check_formatting_rules
                       (auto_fix_issues sections
                         (calculate_keyword_density (extract_resume_keywords sections) job)
                         (check_section_presence sections)).fixed_content)).ats_score
                    - (optimize_resume cfg sections job).ats_score) }) := by
  have hpos := auto_fix_count_pos sections
    (calculate_keyword_density (extract_resume_keywords sections) job)
  unfold optimize_resume
  simp only
  by_cases h : (calculate_ats_score cfg
      (calculate_keyword_density (extract_resume_keywords sections) job)
      (check_section_presence sections) (check_formatting_rules sections)).ats_score
      < cfg.target_ats_score
  · rw [if_pos h, if_pos hpos]
    exact ⟨by simp [h], by trivial, fun _ => by trivial⟩
  · rw [if_neg h]
    exact ⟨by simp [h], by trivial, fun hc => absurd hc h⟩

/-! ### A concrete run of `optimize_resume`

A resume with all four sections and a single job "keyword" consisting of
pipe characters: the keyword can never be matched (resume keywords are
alphabetic words), but the auto-fix appends it to the summary, which
introduces formatting issues and lowers the recomputed score. -/

def exContent : ResumeContent :=
  { summary := some "Hello world",
    skills := some (.plainList ["alpha"]),
    experience := some [{ title := "Coder", description := "Wrote code" }],
    education := some [{ degree := "BSc", field := "CS", institution := "Uni" }] }

def exJob : Finset String := {"||||||||||"}

/-- The content after the auto-fix pass. -/
def exFixed : ResumeContent :=
  { exContent with summary := some "Hello world Experienced with ||||||||||." }

theorem exKwA_eval :
    calculate_keyword_density (extract_resume_keywords exContent) exJob =
      { density_score := 0, raw_match_rate := some 0, matching_keywords := [],
        missing_keywords := ["||||||||||"], total_job_keywords := 1,
        matched_count := 0 } := by
  have hne : exJob ≠ ∅ := by decide
  have hm : extract_resume_keywords exContent ∩ exJob = ∅ := by decide
  have hs : exJob \ extract_resume_keywords exContent = exJob := by decide
  have hc1 : exJob.card = 1 := by decide
  unfold calculate_keyword_density
  rw [if_neg hne]
  simp only [hm, hs, hc1, Finset.card_empty]
  rw [show exJob = {"||||||||||"} from rfl]
  simp only [sortedKeywords, Finset.sort_empty, Finset.sort_singleton]
  norm_num [densityCurve]

theorem exSecA_eval :
    check_section_presence exContent =
      { section_score := 1, present_sections := ["education", "experience", "skills", "summary"],
        missing_sections := [], total_required := 4, present_count := 4 } := by
  have h1 : summaryPresent exContent = true := by decide
  have h2 : skillsPresent exContent = true := by decide
  have h3 : experiencePresent exContent = true := by decide
  have h4 : educationPresent exContent = true := by decide
  unfold check_section_presence
  rw [h1, h2, h3, h4]
  norm_num [sectionScoreOfCount]

theorem exFmtA_score :
    (check_formatting_rules exContent).formatting_score = 1 := by
  have h1 : imageIssueB exContent = false := by decide
  have h2 : tableIssueB exContent = false := by decide
  have h3 : ¬ specialIssueP exContent := by
    unfold specialIssueP
    rw [show ((resume_to_text exContent).data.filter isSpecialChar).length = 0 from by decide,
      show (resume_to_text exContent).length = 45 from by decide]
    norm_num
  have h4 : ¬ longLinesIssueP exContent := by
    unfold longLinesIssueP
    rw [show ((pySplitLines (resume_to_text exContent)).filter
          (fun l => l.length > 100)).length = 0 from by decide,
      show (pySplitLines (resume_to_text exContent)).length = 7 from by decide]
    norm_num
  unfold check_formatting_rules
  rw [h1, h2, decide_eq_false h3, decide_eq_false h4]
  norm_num [issueUnits, formattingScoreOfU]

theorem ex_base_score_lit :
    (calculate_ats_score defaultConfig
      { density_score := 0, raw_match_rate := some 0, matching_keywords := [],
        missing_keywords := ["||||||||||"], total_job_keywords := 1,
        matched_count := 0 }
      { section_score := 1, present_sections := ["education", "experience", "skills", "summary"],
        missing_sections := [], total_required := 4, present_count := 4 }
      (check_formatting_rules exContent)).ats_score = 65 := by
  unfold calculate_ats_score
  simp only
  rw [exFmtA_score]
  norm_num [pyInt, defaultConfig]

theorem ex_base_score :
    (calculate_ats_score defaultConfig
      (calculate_keyword_density (extract_resume_keywords exContent) exJob)
      (check_section_presence exContent) (check_formatting_rules exContent)).ats_score
      = 65 := by
  rw [exKwA_eval, exSecA_eval]
  exact ex_base_score_lit

theorem exAutoFix_eval :
    auto_fix_issues exContent
      { density_score := 0, raw_match_rate := some 0, matching_keywords := [],
        missing_keywords := ["||||||||||"], total_job_keywords := 1,
        matched_count := 0 }
      { section_score := 1, present_sections := ["education", "experience", "skills", "summary"],
        missing_sections := [], total_required := 4, present_count := 4 } =
      { fixed_content := exFixed,
        fixes_applied := ["Enhanced summary with 1 keywords",
          "Standardized summary header to Professional Summary",
          "Standardized skills header to Skills",
          "Standardized experience header to Experience",
          "Standardized education header to Education"],
        fix_count := 5, updated_ats_score := none, score_improvement := none } := by
  decide

theorem exUKwA_eval :
    calculate_keyword_density (extract_resume_keywords exFixed) exJob =
      { density_score := 0, raw_match_rate := some 0, matching_keywords := [],
        missing_keywords := ["||||||||||"], total_job_keywords := 1,
        matched_count := 0 } := by
  have hne : exJob ≠ ∅ := by decide
  have hm : extract_resume_keywords exFixed ∩ exJob = ∅ := by decide
  have hs : exJob \ extract_resume_keywords exFixed = exJob := by decide
  have hc1 : exJob.card = 1 := by decide
  unfold calculate_keyword_density
  rw [if_neg hne]
  simp only [hm, hs, hc1, Finset.card_empty]
  rw [show exJob = {"||||||||||"} from rfl]
  simp only [sortedKeywords, Finset.sort_empty, Finset.sort_singleton]
  norm_num [densityCurve]

theorem exUSecA_score :
    (check_section_presence exFixed).section_score = 1 := by
  have h1 : summaryPresent exFixed = true := by decide
  have h2 : skillsPresent exFixed = true := by decide
  have h3 : experiencePresent exFixed = true := by decide
  have h4 : educationPresent exFixed = true := by decide
  unfold check_section_presence
  rw [h1, h2, h3, h4]
  norm_num [sectionScoreOfCount]

theorem exUFmtA_score :
    (check_formatting_rules exFixed).formatting_score = 95/100 := by
  have h1 : imageIssueB exFixed = false := by decide
  have h2 : tableIssueB exFixed = true := by decide
  have h3 : specialIssueP exFixed := by
    unfold specialIssueP
    rw [show ((resume_to_text exFixed).data.filter isSpecialChar).length = 10 from by decide,
      show (resume_to_text exFixed).length = 74 from by decide]
    norm_num
  have h4 : ¬ longLinesIssueP exFixed := by
    unfold longLinesIssueP
    rw [show ((pySplitLines (resume_to_text exFixed)).filter
          (fun l => l.length > 100)).length = 0 from by decide,
      show (pySplitLines (resume_to_text exFixed)).length = 7 from by decide]
    norm_num
  unfold check_formatting_rules
  rw [h1, h2, decide_eq_true h3, decide_eq_false h4]
  norm_num [issueUnits, formattingScoreOfU]

theorem ex_updated_score_lit :
    (calculate_ats_score defaultConfig
      { density_score := 0, raw_match_rate := some 0, matching_keywords := [],
        missing_keywords := ["||||||||||"], total_job_keywords := 1,
        matched_count := 0 }
      (check_section_presence exFixed) (check_formatting_rules exFixed)).ats_score
      = 63 := by
  unfold calculate_ats_score
  simp only
  rw [exUSecA_score, exUFmtA_score]
  norm_num [pyInt, defaultConfig]

/-- C2 counterexample: on this record the auto-fix lowers the ATS score
from 65 to 63, so the reported `score_improvement` is −2 < 0. -/
theorem C2_counterexample :
    (optimize_resume defaultConfig exContent exJob).auto_fix_results =
      some
        { fixed_content := exFixed,
          fixes_applied := ["Enhanced summary with 1 keywords",
            "Standardized summary header to Professional Summary",
            "Standardized skills header to Skills",
            "Standardized experience header to Experience",
            "Standardized education header to Education"],
          fix_count := 5, updated_ats_score := some 63,
          score_improvement := some (-2) }
    ∧ ((-2 : ℤ) < 0) := by
  refine ⟨?_, by norm_num⟩
  unfold optimize_resume
  simp only
  rw [exKwA_eval, exSecA_eval, ex_base_score_lit]
  rw [if_pos (show (65 : ℤ) < defaultConfig.target_ats_score from by norm_num [defaultConfig])]
  rw [exAutoFix_eval]
  simp only
  rw [if_pos (by norm_num)]
  rw [exUKwA_eval, ex_updated_score_lit]
  norm_num

theorem C2_optimize_autofix_witness :
    (optimize_resume defaultConfig exContent exJob).ats_score
        < defaultConfig.target_ats_score
    ∧ (optimize_resume defaultConfig exContent exJob).auto_fix_results.isSome := by
  have h := C2_optimize_autofix defaultConfig exContent exJob
  have hlt : (optimize_resume defaultConfig exContent exJob).ats_score
      < defaultConfig.target_ats_score := by
    rw [h.2.1, ex_base_score]
    norm_num [defaultConfig]
  exact ⟨hlt, h.1.mpr hlt⟩

theorem C3_ats_score_in_range_witness :
    (0 : ℚ) ≤ 35/100 ∧
    (0 ≤ (calculate_ats_score defaultConfig (calculate_keyword_density ∅ ∅)
          (check_section_presence emptyContent) (check_formatting_rules emptyContent)).ats_score
    ∧ (calculate_ats_score defaultConfig (calculate_keyword_density ∅ ∅)
          (check_section_presence emptyContent) (check_formatting_rules emptyContent)).ats_score ≤ 100
    ∧ (calculate_ats_score defaultConfig (calculate_keyword_density ∅ ∅)
          (check_section_presence emptyContent) (check_formatting_rules emptyContent)).category =
        scoreCategoryClaim (calculate_ats_score defaultConfig (calculate_keyword_density ∅ ∅)
          (check_section_presence emptyContent) (check_formatting_rules emptyContent)).ats_score) :=
  ⟨by norm_num,
   C3_ats_score_in_range defaultConfig (by norm_num [defaultConfig])
     (by norm_num [defaultConfig]) (by norm_num [defaultConfig])
     (by norm_num [defaultConfig]) ∅ ∅ emptyContent emptyContent⟩

/-! ## Claim C5: `ContentAlignmentAgent` experience ranking

The agent extracts keywords with the same `\b[a-zA-Z]+\b` regex, filtered
by a minimum length and a stop-word set.  `highlight_matching_experiences`
scores each entry, collects its matching keywords and sorts the entries by
`alignment_score` descending (Python `list.sort` is stable);
`align_content` keeps the top 5 of them in `aligned_sections.experience`. -/

/-- The stop-word set of `ContentAlignmentAgent.__init__`. -/
def stopWords : List String :=
  ["a", "an", "and", "are", "as", "at", "be", "by", "for", "from",
   "has", "he", "in", "is", "it", "its", "of", "on", "that", "the",
   "to", "was", "will", "with", "or", "but", "not", "this", "have",
   "had", "what", "when", "where", "who", "which", "why", "how"]

structure AlignConfig where
  keyword_weight : ℚ := 1
  experience_weight : ℚ := 3/2
  skills_weight : ℚ := 6/5
  min_keyword_length : ℕ := 3

def defaultAlignConfig : AlignConfig := {}

/-- `ContentAlignmentAgent.extract_keywords`. -/
def extract_keywords (cfg : AlignConfig) (text : String) : Finset String :=
  ((findAlphaWords text).filter
    (fun w => w.length ≥ cfg.min_keyword_length && !stopWords.contains w)).toFinset

/-- `ContentAlignmentAgent.calculate_alignment_score`. -/
def calculate_alignment_score (cfg : AlignConfig) (text : String)
    (job_keywords : Finset String) : ℚ :=
  if text = "" ∨ job_keywords = ∅ then 0
  else
    let tk := extract_keywords cfg text
    if tk = ∅ then 0
    else min (((tk ∩ job_keywords).card : ℚ) / (job_keywords.card : ℚ)) 1

/-- `ContentAlignmentAgent.rephrase_for_alignment`: the keyword-emphasis
loop of the source never changes the text (every path falls through), so
only the digit-free achievement clause remains. -/
def rephrase_for_alignment (text : String) (matching : Finset String) : String :=
  if text = "" ∨ matching = ∅ then text
  else
    let lower := pyLower text
    if text.data.any Char.isDigit then text
    else if strContains lower "developed" || strContains lower "built" then
      text ++ " resulting in improved system performance and efficiency"
    else if strContains lower "managed" || strContains lower "led" then
      text ++ " leading to successful project delivery and team productivity gains"
    else text

/-- An experience entry enriched by `highlight_matching_experiences`
(the fields of the source dictionary that the claims concern). -/
structure RankedExp where
  title : String
  description : String
  alignment_score : ℚ
  matching_keywords : Finset String
  aligned_description : Option String
  deriving DecidableEq

/-- The per-entry enhancement of `highlight_matching_experiences`. -/
def enhanceExp (cfg : AlignConfig) (allKw : Finset String) (e : ExpEntry) : RankedExp :=
  let title_score := calculate_alignment_score cfg e.title allKw
  let desc_score := calculate_alignment_score cfg e.description allKw
  let matching := extract_keywords cfg (e.title ++ " " ++ e.description) ∩ allKw
  { title := e.title, description := e.description,
    alignment_score := (title_score + desc_score * 2) / 3,
    matching_keywords := matching,
    aligned_description :=
      if e.description ≠ "" then some (rephrase_for_alignment e.description matching)
      else none }

/-- Stable insertion into a descending-sorted list: an element is placed
before the first strictly-smaller-or-equal-scored element it dominates,
after earlier equal-scored ones, matching the stability of Python sort. -/
def insertDesc (x : RankedExp) : List RankedExp → List RankedExp
  | [] => [x]
  | y :: ys =>
    if x.alignment_score ≥ y.alignment_score then x :: y :: ys
    else y :: insertDesc x ys

/-- Stable descending sort by `alignment_score`
(`.sort(key=lambda x: x.get(..), reverse=True)`). -/
def sortDesc : List RankedExp → List RankedExp
  | [] => []
  | x :: xs => insertDesc x (sortDesc xs)

/-- `ContentAlignmentAgent.highlight_matching_experiences` (entries are
typed records, so the skip of non-dict entries is vacuous). -/
def highlight_matching_experiences (cfg : AlignConfig) (exps : List ExpEntry)
    (allKw : Finset String) : List RankedExp :=
  sortDesc (exps.map (enhanceExp cfg allKw))

/-- The `aligned_sections.experience` field built by
`ContentAlignmentAgent.align_content`: the top 5 ranked experiences.
(The other fields of the aligned dict are not concerned by the claims.) -/
def align_content_experience (cfg : AlignConfig) (exps : List ExpEntry)
    (allKw : Finset String) : List RankedExp :=
  (highlight_matching_experiences cfg exps allKw).take 5

theorem insertDesc_perm (x : RankedExp) (l : List RankedExp) :
    List.Perm (insertDesc x l) (x :: l) := by
  induction l with
  | nil => rfl
  | cons y ys ih =>
    unfold insertDesc
    split_ifs
    · rfl
    · exact (ih.cons y).trans (List.Perm.swap x y ys)

theorem sortDesc_perm (l : List RankedExp) : List.Perm (sortDesc l) l := by
  induction l with
  | nil => rfl
  | cons x xs ih => exact (insertDesc_perm x (sortDesc xs)).trans (ih.cons x)

theorem mem_insertDesc {z x : RankedExp} {l : List RankedExp}
    (h : z ∈ insertDesc x l) : z = x ∨ z ∈ l := by
  have := (insertDesc_perm x l).mem_iff.mp h
  simpa using this

theorem insertDesc_sorted (x : RankedExp) {l : List RankedExp}
    (h : l.Pairwise (fun a b => b.alignment_score ≤ a.alignment_score)) :
    (insertDesc x l).Pairwise (fun a b => b.alignment_score ≤ a.alignment_score) := by
  induction l with
  | nil => simp [insertDesc]
  | cons y ys ih =>
    unfold insertDesc
    rcases List.pairwise_cons.mp h with ⟨hy, hys⟩
    split_ifs with hx
    · refine List.pairwise_cons.mpr ⟨?_, h⟩
      intro z hz
      rcases List.mem_cons.mp hz with hz | hz
      · subst hz; exact hx
      · exact le_trans (hy z hz) hx
    · refine List.pairwise_cons.mpr ⟨?_, ih hys⟩
      intro z hz
      rcases mem_insertDesc hz with hz | hz
      · subst hz; exact le_of_lt (lt_of_not_ge hx)
      · exact hy z hz

theorem sortDesc_sorted (l : List RankedExp) :
    (sortDesc l).Pairwise (fun a b => b.alignment_score ≤ a.alignment_score) := by
  induction l with
  | nil => simp [sortDesc]
  | cons x xs ih => exact insertDesc_sorted x ih

/-- C5: `highlight_matching_experiences` assigns each entry the score
`(score(title) + 2·score(description)) / 3` and the matching keywords
`extract(title ++ " " ++ description) ∩ job`, returns a permutation of the
enhanced entries sorted descending by `alignment_score`, and the aligned
output keeps exactly the first 5 of them. -/
theorem C5_rank_experience (cfg : AlignConfig) (exps : List ExpEntry)
    (allKw : Finset String) :
    List.Perm (highlight_matching_experiences cfg exps allKw) (exps.map (enhanceExp cfg allKw))
    ∧ (highlight_matching_experiences cfg exps allKw).Pairwise
        (fun a b => b.alignment_score ≤ a.alignment_score)
    ∧ (∀ r ∈ highlight_matching_experiences cfg exps allKw,
        r.alignment_score =
          (calculate_alignment_score cfg r.title allKw
            + 2 * calculate_alignment_score cfg r.description allKw) / 3
        ∧ r.matching_keywords =
            extract_keywords cfg (r.title ++ " " ++ r.description) ∩ allKw)
    ∧ align_content_experience cfg exps allKw =
        (highlight_matching_experiences cfg exps allKw).take 5 := by
  refine ⟨sortDesc_perm _, sortDesc_sorted _, ?_, rfl⟩
  intro r hr
  have hmem : r ∈ exps.map (enhanceExp cfg allKw) := (sortDesc_perm _).mem_iff.mp hr
  rcases List.mem_map.mp hmem with ⟨e, _, he⟩
  subst he
  unfold enhanceExp
  constructor
  · simp only
    ring
  · rfl

/-! ## Claims C6 and C8: `ResumeWorkflow`

The LangGraph graph is a fixed linear chain: every node function runs, but
a node whose input data is missing only appends a guard error and returns
without invoking its agent.  Agents are modelled as oracle functions whose
result is either a value, a falsy/error-carrying dict (`errResult`), or a
raised exception (`raised`); the `calls` field instruments which stages
invoked their agent, and `execution_time` keeps the recorded stage keys
(the wall-clock durations themselves are not modelled). -/

inductive AgentResult (α : Type) where
  | ok (val : α)
  | errResult (msg : String)
  | raised (msg : String)

/-- The five collaborators, over opaque payload types. -/
structure Collaborators (J P A O : Type) where
  extract_job_data : String → AgentResult J
  retrieve_relevant_profile : J → String → AgentResult P
  align_content : J → P → AgentResult A
  optimize_resume : A → AgentResult O
  /-- Rendering returns the file path and the Overleaf-validation warnings. -/
  generate_latex_resume : O → AgentResult (String × List String)

structure WState (J P A O : Type) where
  job_url : String
  profile_id : String
  job_data : Option J := none
  profile_data : Option P := none
  aligned_data : Option A := none
  optimized_data : Option O := none
  latex_file_path : Option String := none
  current_step : String := "initializing"
  step_count : ℕ := 0
  errors : List String := []
  warnings : List String := []
  execution_time : List String := []
  calls : List String := []

variable {J P A O : Type}

def extract_job_data_node (c : Collaborators J P A O) (s : WState J P A O) :
    WState J P A O :=
  let s := { s with current_step := "extract_job_data", step_count := 1,
                    calls := s.calls ++ ["extract_job_data"] }
  match c.extract_job_data s.job_url with
  | .ok j => { s with job_data := some j,
                      execution_time := s.execution_time ++ ["extract_job_data"] }
  | .errResult m => { s with errors := s.errors ++ ["Failed to extract job data: " ++ m] }
  | .raised m => { s with errors := s.errors ++ ["Error in job data extraction: " ++ m] }

def retrieve_profile_node (c : Collaborators J P A O) (s : WState J P A O) :
    WState J P A O :=
  let s := { s with current_step := "retrieve_profile", step_count := 2 }
  match s.job_data with
  | none => { s with errors := s.errors ++ ["No job data available for profile retrieval"] }
  | some j =>
    let s := { s with calls := s.calls ++ ["retrieve_profile"] }
    match c.retrieve_relevant_profile j s.profile_id with
    | .ok p => { s with profile_data := some p,
                        execution_time := s.execution_time ++ ["retrieve_profile"] }
    | .errResult m =>
        { s with errors := s.errors ++ ["Failed to retrieve profile data: " ++ m] }
    | .raised m => { s with errors := s.errors ++ ["Error in profile retrieval: " ++ m] }

def align_content_node (c : Collaborators J P A O) (s : WState J P A O) :
    WState J P A O :=
  let s := { s with current_step := "align_content", step_count := 3 }
  match s.job_data, s.profile_data with
  | some j, some p =>
    let s := { s with calls := s.calls ++ ["align_content"] }
    (match c.align_content j p with
     | .ok a => { s with aligned_data := some a,
                         execution_time := s.execution_time ++ ["align_content"] }
     | .errResult m => { s with errors := s.errors ++ ["Failed to align content: " ++ m] }
     | .raised m => { s with errors := s.errors ++ ["Error in content alignment: " ++ m] })
  | _, _ =>
    { s with errors := s.errors ++ ["Missing job data or profile data for content alignment"] }

def optimize_ats_node (c : Collaborators J P A O) (s : WState J P A O) :
    WState J P A O :=
  let s := { s with current_step := "optimize_ats", step_count := 4 }
  match s.aligned_data with
  | none => { s with errors := s.errors ++ ["No aligned data available for ATS optimization"] }
  | some a =>
    let s := { s with calls := s.calls ++ ["optimize_ats"] }
    match c.optimize_resume a with
    | .ok o => { s with optimized_data := some o,
                        execution_time := s.execution_time ++ ["optimize_ats"] }
    | .errResult m => { s with errors := s.errors ++ ["Failed to optimize for ATS: " ++ m] }
    | .raised m => { s with errors := s.errors ++ ["Error in ATS optimization: " ++ m] }

def generate_latex_node (c : Collaborators J P A O) (s : WState J P A O) :
    WState J P A O :=
  let s := { s with current_step := "generate_latex", step_count := 5 }
  match s.optimized_data with
  | none => { s with errors := s.errors ++ ["No optimized data available for LaTeX generation"] }
  | some o =>
    let s := { s with calls := s.calls ++ ["generate_latex"] }
    match c.generate_latex_resume o with
    | .ok pw => { s with latex_file_path := some pw.1,
                         warnings := s.warnings ++ pw.2,
                         execution_time := s.execution_time ++ ["generate_latex"] }
    | .errResult m => { s with errors := s.errors ++ ["Failed to generate LaTeX file: " ++ m] }
    | .raised m => { s with errors := s.errors ++ ["Error in LaTeX generation: " ++ m] }

/-- One stage of the linear graph, by 1-based index. -/
def node (c : Collaborators J P A O) : ℕ → WState J P A O → WState J P A O
  | 1, s => extract_job_data_node c s
  | 2, s => retrieve_profile_node c s
  | 3, s => align_content_node c s
  | 4, s => optimize_ats_node c s
  | 5, s => generate_latex_node c s
  | _, s => s

def initState (job_url profile_id : String) : WState J P A O :=
  { job_url := job_url, profile_id := profile_id }

/-- The state after the first `k` stages. -/
def runPrefix (c : Collaborators J P A O) (job_url profile_id : String) :
    ℕ → WState J P A O
  | 0 => initState job_url profile_id
  | k + 1 => node c (k + 1) (runPrefix c job_url profile_id k)

structure RunResult where
  success : Bool
  latex_file_path : Option String
  errors : List String
  warnings : List String
  execution_time : List String
  completed_steps : ℕ
  calls : List String

/-- `ResumeWorkflow.run_workflow`: invoke the five-stage graph and build
the result; `success = (errors is empty)`. -/
def run_workflow (c : Collaborators J P A O) (job_url profile_id : String) :
    RunResult :=
  let f := runPrefix c job_url profile_id 5
  { success := f.errors.isEmpty, latex_file_path := f.latex_file_path,
    errors := f.errors, warnings := f.warnings,
    execution_time := f.execution_time ++ ["total"],
    completed_steps := f.step_count, calls := f.calls }

/-! ### Halting lemmas -/

theorem retrieve_skip (c : Collaborators J P A O) (s : WState J P A O)
    (hj : s.job_data = none) :
    retrieve_profile_node c s =
      { s with current_step := "retrieve_profile", step_count := 2,
               errors := s.errors ++ ["No job data available for profile retrieval"] } := by
  unfold retrieve_profile_node
  simp [hj]

theorem align_skip (c : Collaborators J P A O) (s : WState J P A O)
    (h : s.job_data = none ∨ s.profile_data = none) :
    align_content_node c s =
      { s with current_step := "align_content", step_count := 3,
               errors := s.errors
                 ++ ["Missing job data or profile data for content alignment"] } := by
  unfold align_content_node
  rcases h with hj | hp
  · simp [hj]
  · rcases hjob : s.job_data with _ | j <;> simp [hp]

theorem optimize_skip (c : Collaborators J P A O) (s : WState J P A O)
    (ha : s.aligned_data = none) :
    optimize_ats_node c s =
      { s with current_step := "optimize_ats", step_count := 4,
               errors := s.errors ++ ["No aligned data available for ATS optimization"] } := by
  unfold optimize_ats_node
  simp [ha]

theorem generate_skip (c : Collaborators J P A O) (s : WState J P A O)
    (ho : s.optimized_data = none) :
    generate_latex_node c s =
      { s with current_step := "generate_latex", step_count := 5,
               errors := s.errors
                 ++ ["No optimized data available for LaTeX generation"] } := by
  unfold generate_latex_node
  simp [ho]

theorem extract_dichotomy (c : Collaborators J P A O) (s : WState J P A O) :
    ((extract_job_data_node c s).job_data = s.job_data
      ∧ (extract_job_data_node c s).errors ≠ s.errors)
    ∨ (extract_job_data_node c s).errors = s.errors := by
  unfold extract_job_data_node
  cases h : c.extract_job_data s.job_url <;> simp [h]

theorem retrieve_dichotomy (c : Collaborators J P A O) (s : WState J P A O) :
    (retrieve_profile_node c s).profile_data = s.profile_data
    ∨ (retrieve_profile_node c s).errors = s.errors := by
  unfold retrieve_profile_node
  rcases hj : s.job_data with _ | j
  · simp [hj]
  · simp only [hj]
    cases h : c.retrieve_relevant_profile j s.profile_id <;> simp [h]

theorem align_dichotomy (c : Collaborators J P A O) (s : WState J P A O) :
    (align_content_node c s).aligned_data = s.aligned_data
    ∨ (align_content_node c s).errors = s.errors := by
  unfold align_content_node
  rcases hj : s.job_data with _ | j
  · simp [hj]
  · rcases hp : s.profile_data with _ | p
    · simp [hj, hp]
    · simp only [hj, hp]
      cases h : c.align_content j p <;> simp [h]

theorem optimize_dichotomy (c : Collaborators J P A O) (s : WState J P A O) :
    (optimize_ats_node c s).optimized_data = s.optimized_data
    ∨ (optimize_ats_node c s).errors = s.errors := by
  unfold optimize_ats_node
  rcases ha : s.aligned_data with _ | a
  · simp [ha]
  · simp only [ha]
    cases h : c.optimize_resume a <;> simp [h]

theorem extract_preserves (c : Collaborators J P A O) (s : WState J P A O) :
    (extract_job_data_node c s).profile_data = s.profile_data
    ∧ (extract_job_data_node c s).aligned_data = s.aligned_data
    ∧ (extract_job_data_node c s).optimized_data = s.optimized_data := by
  unfold extract_job_data_node
  cases h : c.extract_job_data s.job_url <;> simp [h]

theorem retrieve_preserves (c : Collaborators J P A O) (s : WState J P A O) :
    (retrieve_profile_node c s).job_data = s.job_data
    ∧ (retrieve_profile_node c s).aligned_data = s.aligned_data
    ∧ (retrieve_profile_node c s).optimized_data = s.optimized_data := by
  unfold retrieve_profile_node
  rcases hj : s.job_data with _ | j
  · simp [hj]
  · simp only [hj]
    cases h : c.retrieve_relevant_profile j s.profile_id <;> simp [h]

theorem align_preserves (c : Collaborators J P A O) (s : WState J P A O) :
    (align_content_node c s).optimized_data = s.optimized_data := by
  unfold align_content_node
  rcases hj : s.job_data with _ | j
  · simp [hj]
  · rcases hp : s.profile_data with _ | p
    · simp [hj, hp]
    · simp only [hj, hp]
      cases h : c.align_content j p <;> simp [h]

theorem extract_errors_mono (c : Collaborators J P A O) (s : WState J P A O)
    (h : s.errors ≠ []) : (extract_job_data_node c s).errors ≠ [] := by
  unfold extract_job_data_node
  cases hr : c.extract_job_data s.job_url <;> simp_all

theorem retrieve_errors_mono (c : Collaborators J P A O) (s : WState J P A O)
    (h : s.errors ≠ []) : (retrieve_profile_node c s).errors ≠ [] := by
  unfold retrieve_profile_node
  rcases hj : s.job_data with _ | j
  · simp_all
  · simp only [hj]
    cases hr : c.retrieve_relevant_profile j s.profile_id <;> simp_all

theorem align_errors_mono (c : Collaborators J P A O) (s : WState J P A O)
    (h : s.errors ≠ []) : (align_content_node c s).errors ≠ [] := by
  unfold align_content_node
  rcases hj : s.job_data with _ | j
  · simp_all
  · rcases hp : s.profile_data with _ | p
    · simp_all
    · simp only [hj, hp]
      cases hr : c.align_content j p <;> simp_all

theorem optimize_errors_mono (c : Collaborators J P A O) (s : WState J P A O)
    (h : s.errors ≠ []) : (optimize_ats_node c s).errors ≠ [] := by
  unfold optimize_ats_node
  rcases ha : s.aligned_data with _ | a
  · simp_all
  · simp only [ha]
    cases hr : c.optimize_resume a <;> simp_all

theorem generate_errors_mono (c : Collaborators J P A O) (s : WState J P A O)
    (h : s.errors ≠ []) : (generate_latex_node c s).errors ≠ [] := by
  unfold generate_latex_node
  rcases ho : s.optimized_data with _ | o
  · simp_all
  · simp only [ho]
    cases hr : c.generate_latex_resume o <;> simp_all

theorem prefix1_profile_none (c : Collaborators J P A O) (u p : String) :
    (runPrefix c u p 1).profile_data = none
    ∧ (runPrefix c u p 1).aligned_data = none
    ∧ (runPrefix c u p 1).optimized_data = none := by
  show (extract_job_data_node c (initState u p)).profile_data = none ∧ _ ∧ _
  have h := extract_preserves c (initState (J := J) (P := P) (A := A) (O := O) u p)
  simpa [initState] using h

theorem prefix2_later_none (c : Collaborators J P A O) (u p : String) :
    (runPrefix c u p 2).aligned_data = none
    ∧ (runPrefix c u p 2).optimized_data = none := by
  have h1 := prefix1_profile_none c u p (J := J) (P := P) (A := A) (O := O)
  have h2 := retrieve_preserves c (runPrefix c u p 1 (J := J) (P := P) (A := A) (O := O))
  exact ⟨h2.2.1.trans h1.2.1, h2.2.2.trans h1.2.2⟩

theorem prefix3_optimized_none (c : Collaborators J P A O) (u p : String) :
    (runPrefix c u p 3).optimized_data = none := by
  have h2 := prefix2_later_none c u p (J := J) (P := P) (A := A) (O := O)
  have h3 := align_preserves c (runPrefix c u p 2 (J := J) (P := P) (A := A) (O := O))
  exact h3.trans h2.2

theorem prefix1_fail_job_none (c : Collaborators J P A O) (u p : String)
    (h : (runPrefix c u p 1).errors ≠ []) : (runPrefix c u p 1).job_data = none := by
  rcases extract_dichotomy c (initState (J := J) (P := P) (A := A) (O := O) u p)
    with ⟨hd, _⟩ | he
  · exact hd.trans (by simp [initState])
  · exact absurd (show (runPrefix c u p 1 (J := J) (P := P) (A := A) (O := O)).errors = []
      from he.trans (by simp [initState])) h

theorem prefix2_fail_missing (c : Collaborators J P A O) (u p : String)
    (h : (runPrefix c u p 2).errors ≠ []) :
    (runPrefix c u p 2).job_data = none ∨ (runPrefix c u p 2).profile_data = none := by
  by_cases h1 : (runPrefix c u p 1 (J := J) (P := P) (A := A) (O := O)).errors = []
  · rcases retrieve_dichotomy c (runPrefix c u p 1 (J := J) (P := P) (A := A) (O := O))
      with hd | he
    · exact Or.inr (hd.trans (prefix1_profile_none c u p).1)
    · exact absurd (he.trans h1) h
  · have hj := prefix1_fail_job_none c u p h1
    exact Or.inl ((retrieve_preserves c _).1.trans hj)

theorem prefix3_fail_aligned_none (c : Collaborators J P A O) (u p : String)
    (h : (runPrefix c u p 3).errors ≠ []) : (runPrefix c u p 3).aligned_data = none := by
  by_cases h2 : (runPrefix c u p 2 (J := J) (P := P) (A := A) (O := O)).errors = []
  · rcases align_dichotomy c (runPrefix c u p 2 (J := J) (P := P) (A := A) (O := O))
      with hd | he
    · exact hd.trans (prefix2_later_none c u p).1
    · exact absurd (he.trans h2) h
  · have hm := prefix2_fail_missing c u p h2
    rw [show runPrefix c u p 3 (J := J) (P := P) (A := A) (O := O)
        = align_content_node c (runPrefix c u p 2) from rfl, align_skip c _ hm]
    exact (prefix2_later_none c u p).1

theorem prefix4_fail_optimized_none (c : Collaborators J P A O) (u p : String)
    (h : (runPrefix c u p 4).errors ≠ []) : (runPrefix c u p 4).optimized_data = none := by
  by_cases h3 : (runPrefix c u p 3 (J := J) (P := P) (A := A) (O := O)).errors = []
  · rcases optimize_dichotomy c (runPrefix c u p 3 (J := J) (P := P) (A := A) (O := O))
      with hd | he
    · exact hd.trans (prefix3_optimized_none c u p)
    · exact absurd (he.trans h3) h
  · have ha := prefix3_fail_aligned_none c u p h3
    rw [show runPrefix c u p 4 (J := J) (P := P) (A := A) (O := O)
        = optimize_ats_node c (runPrefix c u p 3) from rfl, optimize_skip c _ ha]
    exact prefix3_optimized_none c u p

theorem node_errors_mono (c : Collaborators J P A O) (j : ℕ) (s : WState J P A O)
    (h : s.errors ≠ []) : (node c j s).errors ≠ [] := by
  rcases j with _ | _ | _ | _ | _ | _ | n
  · exact h
  · exact extract_errors_mono c s h
  · exact retrieve_errors_mono c s h
  · exact align_errors_mono c s h
  · exact optimize_errors_mono c s h
  · exact generate_errors_mono c s h
  · exact h

theorem runPrefix_errors_mono (c : Collaborators J P A O) (u p : String)
    {k k' : ℕ} (h : k ≤ k')
    (he : (runPrefix c u p k).errors ≠ []) : (runPrefix c u p k').errors ≠ [] := by
  induction k' with
  | zero => rwa [Nat.le_zero.mp h] at he
  | succ n ih =>
    rcases Nat.lt_or_ge k (n + 1) with hlt | hge
    · exact node_errors_mono c (n + 1) _ (ih (Nat.lt_succ_iff.mp hlt))
    · rwa [Nat.le_antisymm h hge] at he

theorem chain_from5 (c : Collaborators J P A O) (s : WState J P A O)
    (ho : s.optimized_data = none) :
    (generate_latex_node c s).calls = s.calls := by
  rw [generate_skip c s ho]

theorem chain_from4 (c : Collaborators J P A O) (s : WState J P A O)
    (ha : s.aligned_data = none) (ho : s.optimized_data = none) :
    (generate_latex_node c (optimize_ats_node c s)).calls = s.calls := by
  rw [optimize_skip c s ha]
  exact chain_from5 c _ ho

theorem chain_from3 (c : Collaborators J P A O) (s : WState J P A O)
    (h : s.job_data = none ∨ s.profile_data = none)
    (ha : s.aligned_data = none) (ho : s.optimized_data = none) :
    (generate_latex_node c (optimize_ats_node c (align_content_node c s))).calls
      = s.calls := by
  rw [align_skip c s h]
  exact chain_from4 c _ ha ho

theorem chain_from2 (c : Collaborators J P A O) (s : WState J P A O)
    (hj : s.job_data = none) (_hp : s.profile_data = none)
    (ha : s.aligned_data = none) (ho : s.optimized_data = none) :
    (generate_latex_node c (optimize_ats_node c (align_content_node c
      (retrieve_profile_node c s)))).calls = s.calls := by
  rw [retrieve_skip c s hj]
  exact chain_from3 c _ (Or.inl hj) ha ho

/-- C6: once a stage has recorded an error, none of the later stages
invokes its collaborator or scoring component (the instrumented `calls`
trace does not grow after stage `k`), and the returned result has
`success = false`. -/
theorem C6_halt_on_error (c : Collaborators J P A O) (u p : String) (k : ℕ)
    (hk : k ≤ 5) (h : (runPrefix c u p k).errors ≠ []) :
    (runPrefix c u p 5).calls = (runPrefix c u p k).calls
    ∧ (run_workflow c u p).success = false := by
  have hsucc : (run_workflow c u p).success = false := by
    have h5 := runPrefix_errors_mono c u p hk h
    unfold run_workflow
    simpa [List.isEmpty_iff] using h5
  refine ⟨?_, hsucc⟩
  interval_cases k
  · simp [runPrefix, initState] at h
  · have hj := prefix1_fail_job_none c u p h
    have hrest := prefix1_profile_none c u p (J := J) (P := P) (A := A) (O := O)
    exact chain_from2 c _ hj hrest.1 hrest.2.1 hrest.2.2
  · have hm := prefix2_fail_missing c u p h
    have hrest := prefix2_later_none c u p (J := J) (P := P) (A := A) (O := O)
    exact chain_from3 c _ hm hrest.1 hrest.2
  · have ha := prefix3_fail_aligned_none c u p h
    have ho := prefix3_optimized_none c u p (J := J) (P := P) (A := A) (O := O)
    exact chain_from4 c _ ha ho
  · have ho := prefix4_fail_optimized_none c u p h
    exact chain_from5 c _ ho
  · rfl

/-- A collaborator set whose job extraction fails. -/
def failingCollaborators : Collaborators ℕ ℕ ℕ ℕ :=
  { extract_job_data := fun _ => .errResult "boom",
    retrieve_relevant_profile := fun _ _ => .ok 0,
    align_content := fun _ _ => .ok 0,
    optimize_resume := fun _ => .ok 0,
    generate_latex_resume := fun _ => .ok ("resume.tex", []) }

theorem C6_halt_on_error_witness :
    (1 ≤ 5)
    ∧ (runPrefix failingCollaborators "https://jobs.example/1" "p1" 1).errors ≠ []
    ∧ ((runPrefix failingCollaborators "https://jobs.example/1" "p1" 5).calls =
        (runPrefix failingCollaborators "https://jobs.example/1" "p1" 1).calls
      ∧ (run_workflow failingCollaborators "https://jobs.example/1" "p1").success = false) := by
  have he : (runPrefix failingCollaborators "https://jobs.example/1" "p1" 1).errors ≠ [] := by
    simp [runPrefix, node, initState, extract_job_data_node, failingCollaborators]
  exact ⟨by norm_num, he,
    C6_halt_on_error failingCollaborators "https://jobs.example/1" "p1" 1 (by norm_num) he⟩

/-! ### Claim C8: empty job URL

`run_workflow` itself performs no URL validation: stage 1 runs and invokes
the job extractor, whose `_is_valid_url` check (a model of
`urllib.parse.urlparse`: a URL is valid when both scheme and netloc are
non-empty) raises `ValueError` for the empty string before any fetch. -/

def isSchemeChar (c : Char) : Bool :=
  c.isAlpha || c.isDigit || c == '+' || c == '-' || c == '.'

/-- Split a character list at the first colon. -/
def splitAtColon : List Char → Option (List Char × List Char)
  | [] => none
  | c :: cs =>
    if c = ':' then some ([], cs)
    else match splitAtColon cs with
      | some (pre, post) => some (c :: pre, post)
      | none => none

/-- The scheme (if well-formed) and the remainder of a URL. -/
def urlSplitScheme (url : String) : Option String × List Char :=
  match splitAtColon url.data with
  | some (pre, post) =>
    (match pre with
     | [] => (none, url.data)
     | c :: _ =>
       if c.isAlpha ∧ pre.all isSchemeChar
       then (some (String.mk (pre.map Char.toLower)), post)
       else (none, url.data))
  | none => (none, url.data)

/-- The netloc of the post-scheme remainder: present only after `//`. -/
def urlNetloc : List Char → List Char
  | '/' :: '/' :: r => r.takeWhile (fun c => !(c == '/' || c == '?' || c == '#'))
  | _ => []

/-- `JDExtractorAgent._is_valid_url`: `all([result.scheme, result.netloc])`. -/
def is_valid_url (url : String) : Bool :=
  (urlSplitScheme url).1.isSome && !(urlNetloc (urlSplitScheme url).2).isEmpty

/-- `JDExtractorAgent.extract_job_data` at the granularity the workflow
sees: an invalid URL raises `ValueError` (before any fetch); a failed
fetch (oracle `none`) yields the error-carrying dict; otherwise the page
is parsed (oracle). -/
def jd_extract_job_data (fetch : String → Option String) (parse : String → String → J)
    (url : String) : AgentResult J :=
  if !is_valid_url url then .raised ("Invalid URL: " ++ url)
  else match fetch url with
    | none => .errResult "Failed to fetch page content"
    | some html => .ok (parse html url)

/-- C8 (amended): with an empty `job_url`, stage 1 invokes the job
extractor once (one collaborator call, not zero); its URL validation
raises `ValueError` which becomes the stage-1 error; no fetch happens
(the result does not depend on the fetch oracle), stages 2–5 only record
their guard errors without invoking their collaborators, and
`success = false`. -/
theorem C8_empty_url_validation (fetch : String → Option String)
    (parse : String → String → J) (r2 : J → String → AgentResult P)
    (r3 : J → P → AgentResult A) (r4 : A → AgentResult O)
    (r5 : O → AgentResult (String × List String)) (pid : String) :
    run_workflow
      { extract_job_data := jd_extract_job_data fetch parse,
        retrieve_relevant_profile := r2, align_content := r3,
        optimize_resume := r4, generate_latex_resume := r5 } "" pid =
      { success := false, latex_file_path := none,
        errors := ["Error in job data extraction: Invalid URL: ",
          "No job data available for profile retrieval",
          "Missing job data or profile data for content alignment",
          "No aligned data available for ATS optimization",
          "No optimized data available for LaTeX generation"],
        warnings := [], execution_time := ["total"], completed_steps := 5,
        calls := ["extract_job_data"] } := rfl

/-- A concrete collaborator set around the modelled job extractor. -/
def c8collab : Collaborators ℕ ℕ ℕ ℕ :=
  { extract_job_data := jd_extract_job_data (fun _ => none) (fun _ _ => 0),
    retrieve_relevant_profile := fun _ _ => .ok 0,
    align_content := fun _ _ => .ok 0,
    optimize_resume := fun _ => .ok 0,
    generate_latex_resume := fun _ => .ok ("resume.tex", []) }

/-- C8 counterexample: a run with an empty `job_url` is not rejected
before any stage executes — stage 1 runs and makes one collaborator call
(the job extractor, whose internal URL validation then fails), so the
number of collaborator calls is 1, not 0.  `success` is still false. -/
theorem C8_counterexample :
    (run_workflow c8collab "" "profile_1").calls = ["extract_job_data"]
    ∧ (run_workflow c8collab "" "profile_1").success = false
    ∧ ["extract_job_data"] ≠ ([] : List String) := ⟨rfl, rfl, by decide⟩

/-! ## Claims C7, C9, C10: `WorkflowContextStore`

`WorkflowContextModel` has nine fields: three required strings, four
optional data dicts, an optional string and the `metadata` dict.  Field
values are modelled as Python/JSON values; the store is the map from file
name (`<context_id>.json`) to the serialized snapshot, and JSON
round-tripping is the identity on these values. -/

inductive PyVal where
  | pyNone
  | str (s : String)
  | int (n : ℤ)
  | bool (b : Bool)
  | dict (entries : List (String × PyVal))
  | list (elems : List PyVal)

def PyVal.isNone : PyVal → Bool
  | .pyNone => true
  | _ => false

def PyVal.isDict : PyVal → Bool
  | .dict _ => true
  | _ => false

structure WorkflowContextModel where
  context_id : PyVal
  job_url : PyVal
  profile_id : PyVal
  job_data : PyVal := .pyNone
  profile_data : PyVal := .pyNone
  aligned_data : PyVal := .pyNone
  optimized_data : PyVal := .pyNone
  latex_file_path : PyVal := .pyNone
  metadata : PyVal := .dict []

/-- Python `d[k] = v`-style single-key write: replace in place or append. -/
def setKey (d : List (String × PyVal)) (k : String) (v : PyVal) :
    List (String × PyVal) :=
  match d with
  | [] => [(k, v)]
  | (k', v') :: t => if k' = k then (k, v) :: t else (k', v') :: setKey t k v

/-- Python `dict.update`: write each update key in order. -/
def dictUpdate (d upd : List (String × PyVal)) : List (String × PyVal) :=
  upd.foldl (fun acc kv => setKey acc kv.1 kv.2) d

def lookupKey (d : List (String × PyVal)) (k : String) : Option PyVal :=
  match d with
  | [] => none
  | (k', v') :: t => if k' = k then some v' else lookupKey t k

/-- The field names of `WorkflowContextModel` (`hasattr` succeeds exactly
on these). -/
def contextFieldNames : List String :=
  ["context_id", "job_url", "profile_id", "job_data", "profile_data",
   "aligned_data", "optimized_data", "latex_file_path", "metadata"]

/-- `setattr(context, key, value)` for a model field. -/
def setField (c : WorkflowContextModel) (k : String) (v : PyVal) :
    WorkflowContextModel :=
  if k = "context_id" then { c with context_id := v }
  else if k = "job_url" then { c with job_url := v }
  else if k = "profile_id" then { c with profile_id := v }
  else if k = "job_data" then { c with job_data := v }
  else if k = "profile_data" then { c with profile_data := v }
  else if k = "aligned_data" then { c with aligned_data := v }
  else if k = "optimized_data" then { c with optimized_data := v }
  else if k = "latex_file_path" then { c with latex_file_path := v }
  else if k = "metadata" then { c with metadata := v }
  else c

/-- One key of the `update_context` loop: merge into `metadata` when the
key is `metadata` and the value is a dict (an `AttributeError` escapes if
the current `metadata` is not a dict), otherwise `setattr` when the key is
a model field, otherwise ignore. -/
def applyUpdate (c : WorkflowContextModel) (k : String) (v : PyVal) :
    Except String WorkflowContextModel :=
  match v with
  | .dict d =>
    if k = "metadata" then
      match c.metadata with
      | .dict m => .ok { c with metadata := .dict (dictUpdate m d) }
      | _ => .error "AttributeError: metadata has no attribute update"
    else if contextFieldNames.contains k then .ok (setField c k v) else .ok c
  | v =>
    if contextFieldNames.contains k then .ok (setField c k v) else .ok c

/-- The `for key, value in updates.items()` loop: apply each update in
order, an escaping exception aborts the call. -/
def applyUpdates : WorkflowContextModel → List (String × PyVal) →
    Except String WorkflowContextModel
  | c, [] => .ok c
  | c, kv :: t =>
    match applyUpdate c kv.1 kv.2 with
    | .ok c1 => applyUpdates c1 t
    | .error e => .error e

/-- `WorkflowContextStore.update_context` (without the re-load from disk:
the loaded context is the argument; persistence is modelled separately):
drop the `None`-valued keyword arguments, apply the rest in order. -/
def update_context (c : WorkflowContextModel) (fields : List (String × PyVal)) :
    Except String WorkflowContextModel :=
  applyUpdates c (fields.filter (fun kv => !kv.2.isNone))

/-- `WorkflowContextModel.model_dump`. -/
def model_dump (c : WorkflowContextModel) : PyVal :=
  .dict [("context_id", c.context_id), ("job_url", c.job_url),
    ("profile_id", c.profile_id), ("job_data", c.job_data),
    ("profile_data", c.profile_data), ("aligned_data", c.aligned_data),
    ("optimized_data", c.optimized_data), ("latex_file_path", c.latex_file_path),
    ("metadata", c.metadata)]

def requireStr (d : List (String × PyVal)) (k : String) : Except String PyVal :=
  match lookupKey d k with
  | some (.str s) => .ok (.str s)
  | _ => .error ("validation error: " ++ k)

def optionalDict (d : List (String × PyVal)) (k : String) : Except String PyVal :=
  match lookupKey d k with
  | none => .ok .pyNone
  | some .pyNone => .ok .pyNone
  | some (.dict m) => .ok (.dict m)
  | some _ => .error ("validation error: " ++ k)

def optionalStr (d : List (String × PyVal)) (k : String) : Except String PyVal :=
  match lookupKey d k with
  | none => .ok .pyNone
  | some .pyNone => .ok .pyNone
  | some (.str s) => .ok (.str s)
  | some _ => .error ("validation error: " ++ k)

def defaultedDict (d : List (String × PyVal)) (k : String) : Except String PyVal :=
  match lookupKey d k with
  | none => .ok (.dict [])
  | some (.dict m) => .ok (.dict m)
  | some _ => .error ("validation error: " ++ k)

/-- `WorkflowContextModel(**raw)`: pydantic validation of the loaded dict. -/
def model_validate (v : PyVal) : Except String WorkflowContextModel :=
  match v with
  | .dict d => do
    let cid ← requireStr d "context_id"
    let url ← requireStr d "job_url"
    let pid ← requireStr d "profile_id"
    let jd ← optionalDict d "job_data"
    let pd ← optionalDict d "profile_data"
    let ad ← optionalDict d "aligned_data"
    let od ← optionalDict d "optimized_data"
    let lf ← optionalStr d "latex_file_path"
    let md ← defaultedDict d "metadata"
    pure { context_id := cid, job_url := url, profile_id := pid, job_data := jd,
           profile_data := pd, aligned_data := ad, optimized_data := od,
           latex_file_path := lf, metadata := md }
  | _ => .error "validation error: not a dict"

/-- The persisted store: file name to serialized snapshot. -/
def ContextDisk : Type := List (String × PyVal)

def fileNameOf (c : WorkflowContextModel) : String :=
  (match c.context_id with | .str s => s | _ => "<non-string id>") ++ ".json"

/-- `WorkflowContextStore._write`: overwrite the snapshot for the id
(JSON serialization is the identity on these values). -/
def write_context (disk : ContextDisk) (c : WorkflowContextModel) : ContextDisk :=
  setKey disk (fileNameOf c) (model_dump c)

/-- `WorkflowContextStore.load_context`. -/
def load_context (disk : ContextDisk) (context_id : String) :
    Except String WorkflowContextModel :=
  match lookupKey disk (context_id ++ ".json") with
  | none => .error "FileNotFoundError"
  | some v => model_validate v

/-- Shape constraints that pydantic enforces on a valid context. -/
def WellTypedCtx (c : WorkflowContextModel) : Prop :=
  (∃ s, c.context_id = .str s) ∧ (∃ s, c.job_url = .str s)
  ∧ (∃ s, c.profile_id = .str s)
  ∧ (c.job_data = .pyNone ∨ ∃ d, c.job_data = .dict d)
  ∧ (c.profile_data = .pyNone ∨ ∃ d, c.profile_data = .dict d)
  ∧ (c.aligned_data = .pyNone ∨ ∃ d, c.aligned_data = .dict d)
  ∧ (c.optimized_data = .pyNone ∨ ∃ d, c.optimized_data = .dict d)
  ∧ (c.latex_file_path = .pyNone ∨ ∃ s, c.latex_file_path = .str s)
  ∧ (∃ d, c.metadata = .dict d)

theorem lookup_setKey (d : List (String × PyVal)) (k : String) (v : PyVal) :
    lookupKey (setKey d k v) k = some v := by
  induction d with
  | nil => simp [setKey, lookupKey]
  | cons kv t ih =>
    obtain ⟨k', v'⟩ := kv
    unfold setKey
    split_ifs with h
    · simp [lookupKey]
    · unfold lookupKey
      rw [if_neg h]
      exact ih

theorem model_validate_dump (c : WorkflowContextModel) (h : WellTypedCtx c) :
    model_validate (model_dump c) = .ok c := by
  obtain ⟨⟨s0, h0⟩, ⟨s1, h1⟩, ⟨s2, h2⟩, hjd, hpd, had, hod, hlf, ⟨md, hmd⟩⟩ := h
  cases c
  simp only at h0 h1 h2 hjd hpd had hod hlf hmd
  subst h0; subst h1; subst h2; subst hmd
  rcases hjd with rfl | ⟨d1, rfl⟩ <;> rcases hpd with rfl | ⟨d2, rfl⟩ <;>
    rcases had with rfl | ⟨d3, rfl⟩ <;> rcases hod with rfl | ⟨d4, rfl⟩ <;>
    rcases hlf with rfl | ⟨s5, rfl⟩ <;> rfl

/-- C9: persisting a (well-typed) context and loading it back by its id
returns a context with identical values for every field. -/
theorem C9_persist_then_load (disk : ContextDisk) (c : WorkflowContextModel)
    (h : WellTypedCtx c) (s : String) (hid : c.context_id = .str s) :
    load_context (write_context disk c) s = .ok c := by
  unfold load_context write_context
  rw [show fileNameOf c = s ++ ".json" from by unfold fileNameOf; rw [hid]]
  rw [lookup_setKey]
  exact model_validate_dump c h

/-- A freshly created context skeleton. -/
def ctx0 : WorkflowContextModel :=
  { context_id := .str "ctx1", job_url := .str "https://jobs.example/1",
    profile_id := .str "p1" }

theorem C9_persist_then_load_witness :
    WellTypedCtx ctx0 ∧ ctx0.context_id = .str "ctx1" ∧
    load_context (write_context [] ctx0) "ctx1" = .ok ctx0 := by
  have hw : WellTypedCtx ctx0 :=
    ⟨⟨"ctx1", rfl⟩, ⟨"https://jobs.example/1", rfl⟩, ⟨"p1", rfl⟩,
     Or.inl rfl, Or.inl rfl, Or.inl rfl, Or.inl rfl, Or.inl rfl, ⟨[], rfl⟩⟩
  exact ⟨hw, rfl, C9_persist_then_load [] ctx0 hw "ctx1" rfl⟩

/-! ### C10: updates never clear a set field -/

/-- Every non-`None` field stays non-`None`. -/
def PreservesSet (c c' : WorkflowContextModel) : Prop :=
  (c.context_id ≠ .pyNone → c'.context_id ≠ .pyNone)
  ∧ (c.job_url ≠ .pyNone → c'.job_url ≠ .pyNone)
  ∧ (c.profile_id ≠ .pyNone → c'.profile_id ≠ .pyNone)
  ∧ (c.job_data ≠ .pyNone → c'.job_data ≠ .pyNone)
  ∧ (c.profile_data ≠ .pyNone → c'.profile_data ≠ .pyNone)
  ∧ (c.aligned_data ≠ .pyNone → c'.aligned_data ≠ .pyNone)
  ∧ (c.optimized_data ≠ .pyNone → c'.optimized_data ≠ .pyNone)
  ∧ (c.latex_file_path ≠ .pyNone → c'.latex_file_path ≠ .pyNone)
  ∧ (c.metadata ≠ .pyNone → c'.metadata ≠ .pyNone)

theorem preservesSet_refl (c : WorkflowContextModel) : PreservesSet c c := by
  unfold PreservesSet
  exact ⟨id, id, id, id, id, id, id, id, id⟩

theorem preservesSet_trans {a b c : WorkflowContextModel}
    (h1 : PreservesSet a b) (h2 : PreservesSet b c) : PreservesSet a c := by
  unfold PreservesSet at *
  exact ⟨fun h => h2.1 (h1.1 h), fun h => h2.2.1 (h1.2.1 h),
    fun h => h2.2.2.1 (h1.2.2.1 h), fun h => h2.2.2.2.1 (h1.2.2.2.1 h),
    fun h => h2.2.2.2.2.1 (h1.2.2.2.2.1 h),
    fun h => h2.2.2.2.2.2.1 (h1.2.2.2.2.2.1 h),
    fun h => h2.2.2.2.2.2.2.1 (h1.2.2.2.2.2.2.1 h),
    fun h => h2.2.2.2.2.2.2.2.1 (h1.2.2.2.2.2.2.2.1 h),
    fun h => h2.2.2.2.2.2.2.2.2 (h1.2.2.2.2.2.2.2.2 h)⟩

theorem isNone_false_ne {v : PyVal} (h : v.isNone = false) : v ≠ .pyNone := by
  intro he
  subst he
  simp [PyVal.isNone] at h

theorem setField_preserves (c : WorkflowContextModel) (k : String) {v : PyVal}
    (hv : v.isNone = false) : PreservesSet c (setField c k v) := by
  have hne := isNone_false_ne hv
  unfold setField PreservesSet
  split_ifs <;> exact ⟨by simp_all, by simp_all, by simp_all, by simp_all,
    by simp_all, by simp_all, by simp_all, by simp_all, by simp_all⟩

theorem applyUpdate_set (c : WorkflowContextModel) (k : String) (v : PyVal)
    (hv : v.isNone = false) (hnd : ¬(k = "metadata" ∧ v.isDict = true))
    (hk : contextFieldNames.contains k = true) :
    applyUpdate c k v = .ok (setField c k v) := by
  rcases v with _ | s | n | b | d | l
  · simp [PyVal.isNone] at hv
  · unfold applyUpdate
    dsimp only
    rw [if_pos hk]
  · unfold applyUpdate
    dsimp only
    rw [if_pos hk]
  · unfold applyUpdate
    dsimp only
    rw [if_pos hk]
  · unfold applyUpdate
    dsimp only
    have hkm : ¬(k = "metadata") := fun he => hnd ⟨he, rfl⟩
    rw [if_neg hkm, if_pos hk]
  · unfold applyUpdate
    dsimp only
    rw [if_pos hk]

theorem applyUpdate_ignore (c : WorkflowContextModel) (k : String) (v : PyVal)
    (hk : contextFieldNames.contains k = false) :
    applyUpdate c k v = .ok c := by
  have hkm : ¬(k = "metadata") := by
    intro he
    subst he
    exact absurd hk (by decide)
  have hk' : ¬(contextFieldNames.contains k = true) :=
    fun hc => Bool.false_ne_true (hk.symm.trans hc)
  rcases v with _ | s | n | b | d | l
  · unfold applyUpdate
    dsimp only
    rw [if_neg hk']
  · unfold applyUpdate
    dsimp only
    rw [if_neg hk']
  · unfold applyUpdate
    dsimp only
    rw [if_neg hk']
  · unfold applyUpdate
    dsimp only
    rw [if_neg hk']
  · unfold applyUpdate
    dsimp only
    rw [if_neg hkm, if_neg hk']
  · unfold applyUpdate
    dsimp only
    rw [if_neg hk']

theorem applyUpdate_preserves (c : WorkflowContextModel) (k : String) {v : PyVal}
    (hv : v.isNone = false) {c' : WorkflowContextModel}
    (h : applyUpdate c k v = .ok c') : PreservesSet c c' := by
  by_cases hk : contextFieldNames.contains k = true
  · by_cases hd : k = "metadata" ∧ v.isDict = true
    · obtain ⟨rfl, hdict⟩ := hd
      rcases v with _ | _ | _ | _ | d | _ <;> simp [PyVal.isDict] at hdict
      unfold applyUpdate at h
      dsimp only at h
      rw [if_pos rfl] at h
      rcases hm : c.metadata with _ | s2 | n2 | b2 | m | l2 <;> rw [hm] at h
      · exact absurd h (by simp)
      · exact absurd h (by simp)
      · exact absurd h (by simp)
      · exact absurd h (by simp)
      · cases Except.ok.inj h
        unfold PreservesSet
        exact ⟨id, id, id, id, id, id, id, id, fun _ => by simp⟩
      · exact absurd h (by simp)
    · rw [applyUpdate_set c k v hv hd hk] at h
      cases Except.ok.inj h
      exact setField_preserves c k hv
  · rw [applyUpdate_ignore c k v (by simpa using hk)] at h
    cases Except.ok.inj h
    exact preservesSet_refl c

theorem applyUpdates_preserves (l : List (String × PyVal)) :
    ∀ (c c' : WorkflowContextModel), (∀ kv ∈ l, kv.2.isNone = false) →
    applyUpdates c l = .ok c' → PreservesSet c c' := by
  induction l with
  | nil =>
    intro c c' _ h
    cases Except.ok.inj h
    exact preservesSet_refl c
  | cons kv t ih =>
    intro c c' hall h
    unfold applyUpdates at h
    rcases ha : applyUpdate c kv.1 kv.2 with e | c1 <;> rw [ha] at h
    · exact absurd h (by simp)
    · exact preservesSet_trans
        (applyUpdate_preserves c kv.1 (hall kv (by simp)) ha)
        (ih c1 c' (fun x hx => hall x (List.mem_cons_of_mem _ hx)) h)

/-- C10: an `update_context` call never clears a previously-set field:
`None`-valued keyword arguments and non-field keys are ignored, every
other update writes a non-`None` value or merges into `metadata`. -/
theorem C10_update_never_clears (c : WorkflowContextModel)
    (fields : List (String × PyVal)) (c' : WorkflowContextModel)
    (h : update_context c fields = .ok c') : PreservesSet c c' := by
  unfold update_context at h
  refine applyUpdates_preserves _ c c' (fun kv hkv => ?_) h
  have := (List.mem_filter.mp hkv).2
  simpa using this

theorem C10_update_never_clears_witness :
    update_context ctx0 [("job_url", .str "u2"), ("job_data", .pyNone),
        ("errors", .list [.str "boom"])] =
      .ok (setField ctx0 "job_url" (.str "u2"))
    ∧ PreservesSet ctx0 (setField ctx0 "job_url" (.str "u2")) :=
  ⟨rfl, C10_update_never_clears ctx0
    [("job_url", .str "u2"), ("job_data", .pyNone), ("errors", .list [.str "boom"])]
    (setField ctx0 "job_url" (.str "u2")) rfl⟩

/-! ### C7: update semantics -/

/-- C7 counterexample: the model has no `errors`, `warnings` or
`execution_time` fields; updating with those keys appends and merges
nothing — the context is returned unchanged. -/
theorem C7_counterexample :
    update_context ctx0 [("errors", .list [.str "boom"]),
        ("warnings", .list [.str "warn"]),
        ("execution_time", .dict [("extract_job_data", .int 1)])] = .ok ctx0
    ∧ contextFieldNames.contains "errors" = false
    ∧ contextFieldNames.contains "warnings" = false
    ∧ contextFieldNames.contains "execution_time" = false :=
  ⟨rfl, rfl, rfl, rfl⟩

/-- C7 (amended): for a single keyword argument, `update_context` ignores
a `None` value, merges a dict value into `metadata` key-wise when the key
is `metadata`, overwrites the named field (scalar or data) for any other
model field, and silently ignores keys that are not model fields — in
particular `errors`, `warnings` and `execution_time`, which are workflow
state, not context-store fields. -/
theorem C7_update_semantics (c : WorkflowContextModel) (k : String) (v : PyVal) :
    (v = .pyNone → update_context c [(k, v)] = .ok c)
    ∧ (∀ dnew m, v = .dict dnew → k = "metadata" → c.metadata = .dict m →
        update_context c [(k, v)] = .ok { c with metadata := .dict (dictUpdate m dnew) })
    ∧ (v.isNone = false → ¬(k = "metadata" ∧ v.isDict = true) →
        contextFieldNames.contains k = true →
        update_context c [(k, v)] = .ok (setField c k v))
    ∧ (v.isNone = false → contextFieldNames.contains k = false →
        update_context c [(k, v)] = .ok c) := by
  refine ⟨?_, ?_, ?_, ?_⟩
  · rintro rfl
    rfl
  · rintro dnew m rfl rfl hm
    unfold update_context
    rw [show List.filter (fun kv => !kv.2.isNone) [("metadata", PyVal.dict dnew)]
        = [("metadata", PyVal.dict dnew)] from rfl]
    unfold applyUpdates applyUpdate
    dsimp only
    rw [if_pos rfl, hm]
    rfl
  · intro hv hnd hk
    unfold update_context
    rw [show List.filter (fun kv => !kv.2.isNone) [(k, v)] = [(k, v)] from by
      simp [List.filter, hv]]
    unfold applyUpdates
    rw [applyUpdate_set c k v hv hnd hk]
    rfl
  · intro hv hk
    unfold update_context
    rw [show List.filter (fun kv => !kv.2.isNone) [(k, v)] = [(k, v)] from by
      simp [List.filter, hv]]
    unfold applyUpdates
    rw [applyUpdate_ignore c k v hk]
    rfl

theorem C7_update_semantics_witness :
    update_context ctx0 [("job_url", .pyNone)] = .ok ctx0
    ∧ update_context ctx0 [("metadata", .dict [("stage", .str "done")])] =
        .ok { ctx0 with metadata := .dict (dictUpdate [] [("stage", .str "done")]) }
    ∧ update_context ctx0 [("job_url", .str "u2")] = .ok (setField ctx0 "job_url" (.str "u2"))
    ∧ update_context ctx0 [("nonsense", .int 3)] = .ok ctx0 :=
  ⟨(C7_update_semantics ctx0 "job_url" .pyNone).1 rfl,
   (C7_update_semantics ctx0 "metadata" (.dict [("stage", .str "done")])).2.1
     [("stage", .str "done")] [] rfl rfl rfl,
   (C7_update_semantics ctx0 "job_url" (.str "u2")).2.2.1 rfl (by decide) rfl,
   (C7_update_semantics ctx0 "nonsense" (.int 3)).2.2.2 rfl rfl⟩

end ResumeOpt
